import Mathlib

/-!
# AttributesCreator (netedit/frames/GNEAttributesCreator.cpp)

A shallow embedding of the `AttributesCreator` module of netedit: a fixed-size
array of optional rows indexed by the listed position of an attribute, rebuilt
from a template attribute carrier on show, refreshed in place, and read out
into a `SumoBaseObject` on commit.

Conventions of the embedding.

* A row pointer is an `Option`: `nullptr` is `none`.
* `std::vector::at` is bounds checked; an access outside the vector raises
  `Failure.out_of_range`.  Dereferencing a null pointer is recorded as
  `Failure.nullDereference` and stops the operation where it stands.
* A state-changing member function returns an `Outcome`: the state it leaves
  behind together with the exception that left it, if any.
* The calls a function makes on the `SumoBaseObject` it is handed are recorded
  in order, as a list of `SumoBaseObjectCall`.
* Code that is not part of the translated file (the parsers of
  `GNEAttributeCarrier`, the widgets of a row, the flow editor) is taken as a
  parameter, collected in `External`.
-/

set_option autoImplicit false

namespace GNEAttributesCreator

/-! ## Data model -/

/-- Attribute keys (`SumoXMLAttr`); the three keys the module names, and all others. -/
inductive SumoXMLAttr where
  | SUMO_ATTR_NOTHING
  | SUMO_ATTR_ID
  | SUMO_ATTR_TYPE
  | other (n : Nat)
  deriving DecidableEq, Repr

/-- Element tags (`SumoXMLTag`); the tag the module names, and all others. -/
inductive SumoXMLTag where
  | SUMO_TAG_VAPORIZER
  | other (n : Nat)
  deriving DecidableEq, Repr

/-- Demand edit modes (`DemandEditMode`); the mode the module names, and all others. -/
inductive DemandEditMode where
  | DEMAND_VEHICLE
  | other (n : Nat)
  deriving DecidableEq, Repr

/-- The part of `GNEViewNetHelper::EditModes` read by the module:
`isCurrentSupermodeDemand()` and the public member `demandEditMode`. -/
structure EditModes where
  isCurrentSupermodeDemand : Bool
  demandEditMode : DemandEditMode
  deriving DecidableEq, Repr

/-- The part of `GNEAttributeProperties` read by the module.  Every flag is an
independent getter of the class; `tagPropertyParent` is
`getTagPropertyParent().getTag()`. -/
structure GNEAttributeProperties where
  attr : SumoXMLAttr
  positionListed : Nat
  tagPropertyParent : SumoXMLTag
  hasDefaultValue : Bool
  defaultValue : String
  isUnique : Bool
  isFlowDefinition : Bool
  isActivatable : Bool
  isInt : Bool
  isFloat : Bool
  isBool : Bool
  isposition : Bool
  isSUMOTime : Bool
  isColor : Bool
  isList : Bool
  deriving DecidableEq, Repr

/-- The part of `GNEAttributeCarrier` read by the module: `getTagProperty()`,
iterated as the list of its attribute properties, and the current values of the
carrier (changed by `resetDefaultValues`, read by the rows). -/
structure GNEAttributeCarrier where
  tagProperty : List GNEAttributeProperties
  values : List (SumoXMLAttr × String)
  deriving DecidableEq, Repr

/-- The widget side of an `AttributesCreatorRow`, as seen through its getters:
`getValue()`, `isAttributesCreatorRowEnabled()`, `getAttributeCheckButtonCheck()`
and `isAttributeValid()`. -/
structure RowWidgets where
  value : String
  enabled : Bool
  attributeCheckButtonCheck : Bool
  attributeValid : Bool
  deriving DecidableEq, Repr

/-- An `AttributesCreatorRow`: the attribute properties it was constructed for
(`getAttrProperties()`) and its widgets. -/
structure AttributesCreatorRow extends RowWidgets where
  attrProperties : GNEAttributeProperties
  deriving DecidableEq, Repr

/-- The part of `FlowEditor` read by the module: `shownFlowEditor()` and
`areFlowValuesValid()`. -/
structure FlowEditor where
  shown : Bool
  flowValuesValid : Bool
  deriving DecidableEq, Repr

/-- The C++ types `GNEAttributeCarrier::parse` and `canParse` are instantiated
with in `getAttributesAndValues`. -/
inductive CppType where
  | int
  | double
  | bool
  | Position
  | SUMOTime
  | RGBColor
  | PositionVector
  | stringVector
  deriving DecidableEq, Repr

/-- Code used by the module and defined elsewhere, taken as a parameter.
`Val` is the type of parsed values.

* `MAXNUMBEROFATTRIBUTES` is `GNEAttributeCarrier::MAXNUMBEROFATTRIBUTES`.
* `canParse T` and `parse T` are `GNEAttributeCarrier::canParse<T>` and
  `GNEAttributeCarrier::parse<T>`; `parse` is taken as a total function, an
  exception raised inside a parser is outside the embedding.
* `rowInit`, `rowRefresh` and `rowDisable` give the widgets of a row after its
  constructor, after `refreshRow()` and after `disableRow()`.
* `resetDefaultValues` gives the values of a carrier after
  `resetDefaultValues()`.
* `flowValuesValid` gives `areFlowValuesValid()` after `showFlowEditor`. -/
structure External (Val : Type) where
  MAXNUMBEROFATTRIBUTES : Nat
  canParse : CppType → String → Bool
  parse : CppType → String → Val
  rowInit : GNEAttributeCarrier → GNEAttributeProperties → RowWidgets
  rowRefresh : GNEAttributeCarrier → AttributesCreatorRow → RowWidgets
  rowDisable : AttributesCreatorRow → RowWidgets
  resetDefaultValues : GNEAttributeCarrier → List (SumoXMLAttr × String)
  flowValuesValid : GNEAttributeCarrier → FlowEditor → Bool

/-- The calls `getAttributesAndValues` makes on `CommonXMLStructure::SumoBaseObject`,
each with the attribute key and the value passed; `getFlowAttributes` stands for
handing the object to `FlowEditor::getFlowAttributes`. -/
inductive SumoBaseObjectCall (Val : Type) where
  | addIntAttribute (attr : SumoXMLAttr) (value : Val)
  | addDoubleAttribute (attr : SumoXMLAttr) (value : Val)
  | addBoolAttribute (attr : SumoXMLAttr) (value : Val)
  | addPositionAttribute (attr : SumoXMLAttr) (value : Val)
  | addTimeAttribute (attr : SumoXMLAttr) (value : Val)
  | addColorAttribute (attr : SumoXMLAttr) (value : Val)
  | addPositionVectorAttribute (attr : SumoXMLAttr) (value : Val)
  | addStringListAttribute (attr : SumoXMLAttr) (value : Val)
  | addStringAttribute (attr : SumoXMLAttr) (value : String)
  | getFlowAttributes
  deriving DecidableEq, Repr

/-- The attribute key of a recorded call (`none` for the flow editor's part). -/
def SumoBaseObjectCall.key {Val : Type} : SumoBaseObjectCall Val → Option SumoXMLAttr
  | .addIntAttribute a _ => some a
  | .addDoubleAttribute a _ => some a
  | .addBoolAttribute a _ => some a
  | .addPositionAttribute a _ => some a
  | .addTimeAttribute a _ => some a
  | .addColorAttribute a _ => some a
  | .addPositionVectorAttribute a _ => some a
  | .addStringListAttribute a _ => some a
  | .addStringAttribute a _ => some a
  | .getFlowAttributes => none

/-- Exceptions and faults an operation can end with. -/
inductive Failure where
  | ProcessError (msg : String)
  | out_of_range
  | nullDereference
  deriving DecidableEq, Repr

/-- The members of `AttributesCreator`, with the state of the objects they
point to: `shown` is `shown()` of the module itself, `resetButtonEnabled` the
state of `myResetButton`, `editModes` is
`myFrameParent->getViewNet()->getEditModes()`. -/
structure AttributesCreator where
  myTemplateAC : Option GNEAttributeCarrier
  myHiddenAttributes : List SumoXMLAttr
  myAttributesCreatorRows : List (Option AttributesCreatorRow)
  myFlowEditor : FlowEditor
  shown : Bool
  resetButtonEnabled : Bool
  editModes : EditModes
  deriving DecidableEq, Repr

/-- What a state-changing member function leaves behind: the state, and the
exception it ended with (`none` when it returned normally). -/
structure Outcome where
  state : AttributesCreator
  failure : Option Failure
  deriving DecidableEq, Repr

/-! ## Rows and the flow editor (code outside the translated file) -/

/-- Modelled from the spec: the constructor `AttributesCreatorRow(parent, attribute)`
of GNEAttributesCreatorRow.cpp is missing; the new row is bound to the attribute
it is created for, its widgets are given by `External.rowInit`. -/
def AttributesCreatorRow.create {Val : Type} (ext : External Val) (templateAC : GNEAttributeCarrier)
    (attrProperty : GNEAttributeProperties) : AttributesCreatorRow :=
  { toRowWidgets := ext.rowInit templateAC attrProperty, attrProperties := attrProperty }

/-- Modelled from the spec: `AttributesCreatorRow::refreshRow` is missing; rows
are "updated in place", the row keeps its attribute and its widgets are given by
`External.rowRefresh`. -/
def AttributesCreatorRow.refreshRow {Val : Type} (ext : External Val) (templateAC : GNEAttributeCarrier)
    (row : AttributesCreatorRow) : AttributesCreatorRow :=
  { row with toRowWidgets := ext.rowRefresh templateAC row }

/-- Modelled from the spec: `AttributesCreatorRow::disableRow` is missing; the
row keeps its attribute and its widgets are given by `External.rowDisable`. -/
def AttributesCreatorRow.disableRow {Val : Type} (ext : External Val)
    (row : AttributesCreatorRow) : AttributesCreatorRow :=
  { row with toRowWidgets := ext.rowDisable row }

/-- Modelled from the spec: `FlowEditor::showFlowEditor` is missing; afterwards
the flow editor is shown. -/
def FlowEditor.showFlowEditor {Val : Type} (ext : External Val) (editedFlow : GNEAttributeCarrier)
    (flowEditor : FlowEditor) : FlowEditor :=
  { shown := true, flowValuesValid := ext.flowValuesValid editedFlow flowEditor }

/-- Modelled from the spec: `FlowEditor::hideFlowEditor` is missing; afterwards
the flow editor is not shown. -/
def FlowEditor.hideFlowEditor (flowEditor : FlowEditor) : FlowEditor :=
  { flowEditor with shown := false }

/-- Modelled from the spec: `GNEAttributeCarrier::resetDefaultValues` is
missing; the tag property of the carrier is unchanged, its values are given by
`External.resetDefaultValues`. -/
def GNEAttributeCarrier.resetDefaultValues {Val : Type} (ext : External Val)
    (ac : GNEAttributeCarrier) : GNEAttributeCarrier :=
  { ac with values := ext.resetDefaultValues ac }

/-! ## getAttributesAndValues -/

/-- The inclusion test of `getAttributesAndValues` (the four flags and the
condition of the inner `if`). -/
def includeRow (includeAll : Bool) (row : AttributesCreatorRow) : Bool :=
  let attrProperties := row.attrProperties
  let rowEnabled := row.enabled
  let hasDefaultStaticValue :=
    !attrProperties.hasDefaultValue || (attrProperties.defaultValue != row.value)
  let isFlowDefinitionAttribute := attrProperties.isFlowDefinition
  let isActivatableAttribute := attrProperties.isActivatable && row.attributeCheckButtonCheck
  rowEnabled && (includeAll || hasDefaultStaticValue || isFlowDefinitionAttribute || isActivatableAttribute)

/-- The value `canParse<T>(text) ? parse<T>(text) : parse<T>(default)` of
`getAttributesAndValues`. -/
def parseOrDefault {Val : Type} (ext : External Val) (T : CppType) (row : AttributesCreatorRow) : Val :=
  if ext.canParse T row.value then ext.parse T row.value
  else ext.parse T row.attrProperties.defaultValue

/-- The type dispatch of `getAttributesAndValues`: the call made on the base
object for an included row. -/
def addAttribute {Val : Type} (ext : External Val) (row : AttributesCreatorRow) : SumoBaseObjectCall Val :=
  let attrProperties := row.attrProperties
  if attrProperties.isInt then
    .addIntAttribute attrProperties.attr (parseOrDefault ext .int row)
  else if attrProperties.isFloat then
    .addDoubleAttribute attrProperties.attr (parseOrDefault ext .double row)
  else if attrProperties.isBool then
    .addBoolAttribute attrProperties.attr (parseOrDefault ext .bool row)
  else if attrProperties.isposition then
    .addPositionAttribute attrProperties.attr (parseOrDefault ext .Position row)
  else if attrProperties.isSUMOTime then
    .addTimeAttribute attrProperties.attr (parseOrDefault ext .SUMOTime row)
  else if attrProperties.isColor then
    .addColorAttribute attrProperties.attr (parseOrDefault ext .RGBColor row)
  else if attrProperties.isList then
    if attrProperties.isposition then
      .addPositionVectorAttribute attrProperties.attr (parseOrDefault ext .PositionVector row)
    else
      .addStringListAttribute attrProperties.attr (parseOrDefault ext .stringVector row)
  else
    .addStringAttribute attrProperties.attr row.value

/-- The body of the loop of `getAttributesAndValues` for one slot of the row
array. -/
def getAttributesAndValuesRow {Val : Type} (ext : External Val) (includeAll : Bool)
    (baseObject : List (SumoBaseObjectCall Val)) (row : Option AttributesCreatorRow) :
    List (SumoBaseObjectCall Val) :=
  match row with
  | none => baseObject
  | some row =>
    if row.attrProperties.attr != SumoXMLAttr.SUMO_ATTR_NOTHING then
      if includeRow includeAll row then baseObject ++ [addAttribute ext row]
      else baseObject
    else baseObject

/-- The loop of `getAttributesAndValues` over the row array. -/
def getAttributesAndValuesRows {Val : Type} (ext : External Val) (includeAll : Bool)
    (rows : List (Option AttributesCreatorRow)) (baseObject : List (SumoBaseObjectCall Val)) :
    List (SumoBaseObjectCall Val) :=
  rows.foldl (getAttributesAndValuesRow ext includeAll) baseObject

/-- The function `AttributesCreator::getAttributesAndValues`: the calls made on
`baseObject`, appended to those already recorded. -/
def getAttributesAndValues {Val : Type} (ext : External Val) (s : AttributesCreator)
    (baseObject : List (SumoBaseObjectCall Val)) (includeAll : Bool) : List (SumoBaseObjectCall Val) :=
  let baseObject := getAttributesAndValuesRows ext includeAll s.myAttributesCreatorRows baseObject
  if s.myFlowEditor.shown then baseObject ++ [SumoBaseObjectCall.getFlowAttributes]
  else baseObject

/-! ## The constructor, refreshRows and the operations built on it -/

/-- The constructor `AttributesCreator::AttributesCreator`: no template, the row
array resized to `MAXNUMBEROFATTRIBUTES` null pointers.  The state of the
toolkit objects it creates (flow editor, visibility, reset button) and the edit
modes of the parent frame's view are arguments. -/
def AttributesCreator.construct {Val : Type} (ext : External Val) (editModes : EditModes)
    (flowEditor : FlowEditor) (shown resetButtonEnabled : Bool) : AttributesCreator :=
  { myTemplateAC := none
    myHiddenAttributes := []
    myAttributesCreatorRows := List.replicate ext.MAXNUMBEROFATTRIBUTES none
    myFlowEditor := flowEditor
    shown := shown
    resetButtonEnabled := resetButtonEnabled
    editModes := editModes }

/-- The flag `showAttribute` of the loop body of `refreshRows`, after the five
checks that can clear it. -/
def showAttribute (s : AttributesCreator) (attrProperty : GNEAttributeProperties) : Bool :=
  let showAttribute := true
  let showAttribute :=
    if attrProperty.isUnique && (attrProperty.attr != SumoXMLAttr.SUMO_ATTR_ID) then false
    else showAttribute
  let showAttribute :=
    if s.myHiddenAttributes.contains attrProperty.attr then false else showAttribute
  let showAttribute :=
    if attrProperty.isFlowDefinition then false else showAttribute
  let showAttribute :=
    if (attrProperty.attr == SumoXMLAttr.SUMO_ATTR_ID) &&
        (attrProperty.tagPropertyParent == SumoXMLTag.SUMO_TAG_VAPORIZER) then false
    else showAttribute
  let showAttribute :=
    if (attrProperty.attr == SumoXMLAttr.SUMO_ATTR_TYPE) && s.editModes.isCurrentSupermodeDemand &&
        (s.editModes.demandEditMode == DemandEditMode.DEMAND_VEHICLE) then false
    else showAttribute
  showAttribute

/-- The state of the loop of `refreshRows`: the row array, the flag
`showFlowEditor`, and the exception that ended the loop, if any. -/
structure RefreshLoop where
  rows : List (Option AttributesCreatorRow)
  showFlowEditor : Bool
  failure : Option Failure
  deriving DecidableEq, Repr

/-- The loop of `refreshRows` over the attributes of the template.  `s` gives
the hidden attributes and the edit modes, which the loop does not change. -/
def refreshRowsLoop {Val : Type} (ext : External Val) (createRows : Bool)
    (templateAC : GNEAttributeCarrier) (s : AttributesCreator) :
    List GNEAttributeProperties → List (Option AttributesCreatorRow) → Bool → RefreshLoop
  | [], rows, showFlowEditor => ⟨rows, showFlowEditor, none⟩
  | attrProperty :: rest, rows, showFlowEditor =>
    let showFlowEditor := if attrProperty.isFlowDefinition then true else showFlowEditor
    if showAttribute s attrProperty then
      if createRows then
        if attrProperty.positionListed < rows.length then
          refreshRowsLoop ext createRows templateAC s rest
            (rows.set attrProperty.positionListed
              (some (AttributesCreatorRow.create ext templateAC attrProperty)))
            showFlowEditor
        else ⟨rows, showFlowEditor, some Failure.out_of_range⟩
      else
        match rows.get? attrProperty.positionListed with
        | none => ⟨rows, showFlowEditor, some Failure.out_of_range⟩
        | some none => ⟨rows, showFlowEditor, some Failure.nullDereference⟩
        | some (some row) =>
          refreshRowsLoop ext createRows templateAC s rest
            (rows.set attrProperty.positionListed (some (row.refreshRow ext templateAC)))
            showFlowEditor
    else refreshRowsLoop ext createRows templateAC s rest rows showFlowEditor

/-- The function `AttributesCreator::refreshRows`. -/
def refreshRows {Val : Type} (ext : External Val) (createRows : Bool) (s : AttributesCreator) :
    Outcome :=
  match s.myTemplateAC with
  | none => ⟨s, some Failure.nullDereference⟩
  | some templateAC =>
    let loop := refreshRowsLoop ext createRows templateAC s templateAC.tagProperty
      s.myAttributesCreatorRows false
    let s := { s with myAttributesCreatorRows := loop.rows }
    match loop.failure with
    | some failure => ⟨s, some failure⟩
    | none =>
      if loop.showFlowEditor then
        ⟨{ s with myFlowEditor := s.myFlowEditor.showFlowEditor ext templateAC }, none⟩
      else
        ⟨{ s with myFlowEditor := s.myFlowEditor.hideFlowEditor }, none⟩

/-- The function `AttributesCreator::showAttributesCreatorModule`; a null
`templateAC` is `none`. -/
def showAttributesCreatorModule {Val : Type} (ext : External Val)
    (templateAC : Option GNEAttributeCarrier) (hiddenAttributes : List SumoXMLAttr)
    (s : AttributesCreator) : Outcome :=
  let s := { s with
    myAttributesCreatorRows :=
      s.myAttributesCreatorRows.map (fun row => if row.isSome then none else row) }
  match templateAC with
  | some templateAC =>
    let s := { s with myTemplateAC := some templateAC, myHiddenAttributes := hiddenAttributes }
    let out := refreshRows ext true s
    match out.failure with
    | some failure => ⟨out.state, some failure⟩
    | none => ⟨{ out.state with resetButtonEnabled := true, shown := true }, none⟩
  | none => ⟨s, some (Failure.ProcessError "invalid templateAC in showAttributesCreatorModule")⟩

/-- The function `AttributesCreator::hideAttributesCreatorModule`. -/
def hideAttributesCreatorModule (s : AttributesCreator) : AttributesCreator :=
  { s with myFlowEditor := s.myFlowEditor.hideFlowEditor, shown := false }

/-- The function `AttributesCreator::refreshAttributesCreator`. -/
def refreshAttributesCreator {Val : Type} (ext : External Val) (s : AttributesCreator) : Outcome :=
  if s.shown && s.myTemplateAC.isSome then refreshRows ext false s
  else ⟨s, none⟩

/-- The function `AttributesCreator::disableAttributesCreator`. -/
def disableAttributesCreator {Val : Type} (ext : External Val) (s : AttributesCreator) :
    AttributesCreator :=
  { s with
    myAttributesCreatorRows :=
      s.myAttributesCreatorRows.map (fun row =>
        match row with
        | some row => some (row.disableRow ext)
        | none => none)
    resetButtonEnabled := false }

/-- The loop of `areValuesValid` over the attributes of the template:
`some false` is the early `return false`, `none` the end of the loop. -/
def areValuesValidLoop (rows : List (Option AttributesCreatorRow)) :
    List GNEAttributeProperties → Except Failure (Option Bool)
  | [] => .ok none
  | attrProperty :: rest =>
    match rows.get? attrProperty.positionListed with
    | none => .error Failure.out_of_range
    | some none => areValuesValidLoop rows rest
    | some (some row) =>
      if !row.attributeValid then .ok (some false)
      else areValuesValidLoop rows rest

/-- The function `AttributesCreator::areValuesValid`. -/
def areValuesValid (s : AttributesCreator) : Except Failure Bool :=
  match s.myTemplateAC with
  | none => .error Failure.nullDereference
  | some templateAC =>
    match areValuesValidLoop s.myAttributesCreatorRows templateAC.tagProperty with
    | .error failure => .error failure
    | .ok (some result) => .ok result
    | .ok none =>
      if s.myFlowEditor.shown then .ok s.myFlowEditor.flowValuesValid
      else .ok true

/-- The function `AttributesCreator::onCmdReset`. -/
def onCmdReset {Val : Type} (ext : External Val) (s : AttributesCreator) : Outcome :=
  match s.myTemplateAC with
  | some templateAC =>
    refreshRows ext false { s with myTemplateAC := some (templateAC.resetDefaultValues ext) }
  | none => ⟨s, none⟩

/-! ## Auxiliary definitions -/

/-- The loop `showAttributesCreatorModule` runs through `refreshRows(true)`: it
starts from the emptied row array, with the new template and hidden list. -/
def showLoop {Val : Type} (ext : External Val) (templateAC : GNEAttributeCarrier)
    (hiddenAttributes : List SumoXMLAttr) (s : AttributesCreator) : RefreshLoop :=
  refreshRowsLoop ext true templateAC
    { s with
      myAttributesCreatorRows := List.replicate s.myAttributesCreatorRows.length none
      myTemplateAC := some templateAC
      myHiddenAttributes := hiddenAttributes }
    templateAC.tagProperty (List.replicate s.myAttributesCreatorRows.length none) false

/-- The public operations of the module that change its state. -/
inductive Operation where
  | showAttributesCreatorModule (templateAC : Option GNEAttributeCarrier)
      (hiddenAttributes : List SumoXMLAttr)
  | hideAttributesCreatorModule
  | refreshAttributesCreator
  | disableAttributesCreator
  | onCmdReset
  deriving DecidableEq, Repr

/-- One public operation applied to a state. -/
def Operation.apply {Val : Type} (ext : External Val) (op : Operation) (s : AttributesCreator) :
    Outcome :=
  match op with
  | .showAttributesCreatorModule templateAC hiddenAttributes =>
    GNEAttributesCreator.showAttributesCreatorModule ext templateAC hiddenAttributes s
  | .hideAttributesCreatorModule => ⟨GNEAttributesCreator.hideAttributesCreatorModule s, none⟩
  | .refreshAttributesCreator => GNEAttributesCreator.refreshAttributesCreator ext s
  | .disableAttributesCreator => ⟨GNEAttributesCreator.disableAttributesCreator ext s, none⟩
  | .onCmdReset => GNEAttributesCreator.onCmdReset ext s

/-- A sequence of public operations applied to a state, each starting from the
state the one before left behind, whether it returned or threw.  Nothing else
touches the state in between: the hidden attributes and the edit modes change
only where an operation changes them. -/
def run {Val : Type} (ext : External Val) (ops : List Operation) (s : AttributesCreator) :
    AttributesCreator :=
  ops.foldl (fun s op => (op.apply ext s).state) s

/-! ## Reading of the specification -/

/-- The kind an attribute is declared with, as the specification lists them
(int, float, bool, position, time, color, list of strings), given as the C++
type of the kind.  An attribute carrying several type flags counts as the first
kind of that list; the position flag together with the list flag is the list of
positions, which is not one of the seven; `none` is any other attribute. -/
def declaredType (attrProperties : GNEAttributeProperties) : Option CppType :=
  if attrProperties.isInt then some .int
  else if attrProperties.isFloat then some .double
  else if attrProperties.isBool then some .bool
  else if attrProperties.isposition then
    if attrProperties.isList then none else some .Position
  else if attrProperties.isSUMOTime then some .SUMOTime
  else if attrProperties.isColor then some .RGBColor
  else if attrProperties.isList then some .stringVector
  else none

/-- The method of `SumoBaseObject` that takes a value of the C++ type `T`. -/
def addAttributeOfType {Val : Type} (T : CppType) (attr : SumoXMLAttr) (value : Val) :
    SumoBaseObjectCall Val :=
  match T with
  | .int => .addIntAttribute attr value
  | .double => .addDoubleAttribute attr value
  | .bool => .addBoolAttribute attr value
  | .Position => .addPositionAttribute attr value
  | .SUMOTime => .addTimeAttribute attr value
  | .RGBColor => .addColorAttribute attr value
  | .PositionVector => .addPositionVectorAttribute attr value
  | .stringVector => .addStringListAttribute attr value

/-- The inclusion condition as the specification words it: the row is enabled
and one of five conditions holds. -/
def InclusionCondition (includeAll : Bool) (row : AttributesCreatorRow) : Prop :=
  row.enabled = true ∧
    (includeAll = true ∨
     row.attrProperties.hasDefaultValue = false ∨
     row.value ≠ row.attrProperties.defaultValue ∨
     row.attrProperties.isFlowDefinition = true ∨
     (row.attrProperties.isActivatable = true ∧ row.attributeCheckButtonCheck = true))

instance (includeAll : Bool) (row : AttributesCreatorRow) :
    Decidable (InclusionCondition includeAll row) := by
  unfold InclusionCondition
  infer_instance

/-- A plain string attribute: none of int, float, bool, position, time, color,
list. -/
def isPlainString (attrProperties : GNEAttributeProperties) : Prop :=
  attrProperties.isInt = false ∧ attrProperties.isFloat = false ∧ attrProperties.isBool = false ∧
  attrProperties.isposition = false ∧ attrProperties.isSUMOTime = false ∧
  attrProperties.isColor = false ∧ attrProperties.isList = false

instance (attrProperties : GNEAttributeProperties) : Decidable (isPlainString attrProperties) := by
  unfold isPlainString
  infer_instance

/-- Modelled from the spec: `GNEAttributeCarrier::canParse<std::string>` is
missing, and the module never calls it; the text of a row is a string already,
so parsing it as a plain string does not fail. -/
def canParseString (_text : String) : Bool := true

/-- Modelled from the spec: `GNEAttributeCarrier::parse<std::string>` is missing,
and the module never calls it; a text parsed as a plain string is the text
itself. -/
def parseString (text : String) : String := text

/-- The parse-or-default step the specification describes, at `std::string`. -/
def stringParseOrDefault (row : AttributesCreatorRow) : String :=
  if canParseString row.value then parseString row.value
  else parseString row.attrProperties.defaultValue

/-- The rows of the array that exist, have an attribute other than
`SUMO_ATTR_NOTHING` and pass the inclusion test, in slot order. -/
def includedRows (includeAll : Bool) (rows : List (Option AttributesCreatorRow)) :
    List AttributesCreatorRow :=
  (rows.filterMap id).filter (fun row =>
    (row.attrProperties.attr != SumoXMLAttr.SUMO_ATTR_NOTHING) && includeRow includeAll row)

/-- The display filter as the specification words it: the attribute is not
unique or is the ID attribute; it is not in the hidden list; it is no flow
definition; it is not the ID attribute of a vaporizer tag; it is not the TYPE
attribute while the view is in the demand supermode with the vehicle demand edit
mode. -/
def Displayed (hiddenAttributes : List SumoXMLAttr) (editModes : EditModes)
    (a : GNEAttributeProperties) : Prop :=
  (a.isUnique = false ∨ a.attr = SumoXMLAttr.SUMO_ATTR_ID) ∧
  a.attr ∉ hiddenAttributes ∧
  a.isFlowDefinition = false ∧
  ¬ (a.attr = SumoXMLAttr.SUMO_ATTR_ID ∧ a.tagPropertyParent = SumoXMLTag.SUMO_TAG_VAPORIZER) ∧
  ¬ (a.attr = SumoXMLAttr.SUMO_ATTR_TYPE ∧ editModes.isCurrentSupermodeDemand = true ∧
      editModes.demandEditMode = DemandEditMode.DEMAND_VEHICLE)

instance (hiddenAttributes : List SumoXMLAttr) (editModes : EditModes)
    (a : GNEAttributeProperties) : Decidable (Displayed hiddenAttributes editModes a) := by
  unfold Displayed
  infer_instance

/-- The property of the row array on which `refreshRows(false)` relies: whenever
a template is set, every attribute of the template that passes the display
filter, with the stored hidden attributes and the current edit modes, has a row
at its listed position. -/
def RowsPresent (s : AttributesCreator) : Prop :=
  ∀ templateAC, s.myTemplateAC = some templateAC →
    ∀ a ∈ templateAC.tagProperty, Displayed s.myHiddenAttributes s.editModes a →
      ∃ row, s.myAttributesCreatorRows.get? a.positionListed = some (some row)

/-- Every call of `showAttributesCreatorModule` in the sequence of operations,
applied from `s` on, returns normally. -/
def showsReturnNormally {Val : Type} (ext : External Val) :
    List Operation → AttributesCreator → Prop
  | [], _ => True
  | op :: ops, s =>
    ((∃ templateAC hiddenAttributes,
        op = Operation.showAttributesCreatorModule templateAC hiddenAttributes) →
      (op.apply ext s).failure = none) ∧
    showsReturnNormally ext ops (op.apply ext s).state

/-! ## Concrete inputs -/

/-- An environment for the examples: three slots; a text parses unless it is
"x"; a parsed value is the pair of the C++ type asked for and the text; a new
row is enabled, valid, unchecked and shows the value of the template; disabling
a row clears its enabled flag. -/
def exampleExt : External (CppType × String) :=
  { MAXNUMBEROFATTRIBUTES := 3
    canParse := fun _ text => text != "x"
    parse := fun T text => (T, text)
    rowInit := fun templateAC attrProperty =>
      { value := (templateAC.values.lookup attrProperty.attr).getD ""
        enabled := true
        attributeCheckButtonCheck := false
        attributeValid := true }
    rowRefresh := fun templateAC row =>
      { row.toRowWidgets with value := (templateAC.values.lookup row.attrProperties.attr).getD "" }
    rowDisable := fun row => { row.toRowWidgets with enabled := false }
    resetDefaultValues := fun ac => ac.tagProperty.map (fun a => (a.attr, a.defaultValue))
    flowValuesValid := fun _ _ => true }

/-- An attribute with default value "d" and every flag cleared. -/
def exampleAttribute (attr : SumoXMLAttr) (positionListed : Nat) : GNEAttributeProperties :=
  { attr := attr
    positionListed := positionListed
    tagPropertyParent := SumoXMLTag.other 0
    hasDefaultValue := true
    defaultValue := "d"
    isUnique := false
    isFlowDefinition := false
    isActivatable := false
    isInt := false
    isFloat := false
    isBool := false
    isposition := false
    isSUMOTime := false
    isColor := false
    isList := false }

/-- The module as constructed for the examples: network supermode, flow editor
hidden, module hidden. -/
def exampleCreator : AttributesCreator :=
  AttributesCreator.construct exampleExt ⟨false, DemandEditMode.other 0⟩ ⟨false, true⟩ false true

/-- A template with a plain string attribute in slot 0 whose value is "x", and
an int attribute in slot 1 whose value is "x" as well. -/
def exampleTemplate : GNEAttributeCarrier :=
  { tagProperty :=
      [exampleAttribute (SumoXMLAttr.other 8) 0,
       { exampleAttribute (SumoXMLAttr.other 9) 1 with isInt := true }]
    values := [(SumoXMLAttr.other 8, "x"), (SumoXMLAttr.other 9, "x")] }

/-- The module after showing `exampleTemplate`. -/
def exampleShown : AttributesCreator :=
  (showAttributesCreatorModule exampleExt (some exampleTemplate) [] exampleCreator).state

/-- The row of `exampleShown` in slot 0. -/
def exampleStringRow : AttributesCreatorRow :=
  AttributesCreatorRow.create exampleExt exampleTemplate (exampleAttribute (SumoXMLAttr.other 8) 0)

/-- The row of `exampleShown` in slot 1. -/
def exampleIntRow : AttributesCreatorRow :=
  AttributesCreatorRow.create exampleExt exampleTemplate
    { exampleAttribute (SumoXMLAttr.other 9) 1 with isInt := true }

/-- A template with one attribute, a list of positions (the list flag and the
position flag), in slot 0. -/
def exampleShapeTemplate : GNEAttributeCarrier :=
  { tagProperty := [{ exampleAttribute (SumoXMLAttr.other 7) 0 with isposition := true, isList := true }]
    values := [(SumoXMLAttr.other 7, "0,0 1,1")] }

/-- The module after showing `exampleShapeTemplate`. -/
def exampleShapeShown : AttributesCreator :=
  (showAttributesCreatorModule exampleExt (some exampleShapeTemplate) [] exampleCreator).state

/-- A template with one plain string attribute in slot 0 whose value is its
default "d". -/
def exampleDefaultTemplate : GNEAttributeCarrier :=
  { tagProperty := [exampleAttribute (SumoXMLAttr.other 8) 0]
    values := [(SumoXMLAttr.other 8, "d")] }

/-- The module after showing `exampleDefaultTemplate`. -/
def exampleDefaultShown : AttributesCreator :=
  (showAttributesCreatorModule exampleExt (some exampleDefaultTemplate) [] exampleCreator).state

/-- A template whose only attribute is unique, hence not displayed, and listed
at position 5, beyond the three slots of `exampleExt`. -/
def exampleFarTemplate : GNEAttributeCarrier :=
  { tagProperty := [{ exampleAttribute (SumoXMLAttr.other 9) 5 with isUnique := true }]
    values := [] }

/-- A template with a flow-definition attribute, which is also unique, listed at
0 and a plain string attribute, which is displayed, listed at 1. -/
def exampleFlowTemplate : GNEAttributeCarrier :=
  { tagProperty :=
      [{ exampleAttribute (SumoXMLAttr.other 6) 0 with isFlowDefinition := true, isUnique := true },
       exampleAttribute (SumoXMLAttr.other 8) 1]
    values := [(SumoXMLAttr.other 8, "x")] }

/-- A template with a flow-definition attribute listed at 0 and a plain string
attribute, which is displayed, listed at position 5, beyond the three slots of
`exampleExt`. -/
def exampleFlowFarTemplate : GNEAttributeCarrier :=
  { tagProperty :=
      [{ exampleAttribute (SumoXMLAttr.other 6) 0 with isFlowDefinition := true },
       exampleAttribute (SumoXMLAttr.other 8) 5]
    values := [(SumoXMLAttr.other 8, "x")] }

/-- The module after a show of `exampleTemplate` followed by a show of the null
template. -/
def exampleAfterNullShow : AttributesCreator :=
  run exampleExt
    [Operation.showAttributesCreatorModule (some exampleTemplate) [],
     Operation.showAttributesCreatorModule none []]
    exampleCreator

/-- The module after a show of `exampleTemplate`, which has no flow-definition
attribute, followed by a show of `exampleFlowFarTemplate`. -/
def exampleAfterFarShow : AttributesCreator :=
  run exampleExt
    [Operation.showAttributesCreatorModule (some exampleTemplate) [],
     Operation.showAttributesCreatorModule (some exampleFlowFarTemplate) []]
    exampleCreator

/-- The module after a show of `exampleFlowTemplate`, a hide, and a show of the
null template. -/
def exampleFlowAfterNullShow : AttributesCreator :=
  run exampleExt
    [Operation.showAttributesCreatorModule (some exampleFlowTemplate) [],
     Operation.hideAttributesCreatorModule,
     Operation.showAttributesCreatorModule none []]
    exampleCreator

/-- A template with one plain string attribute in slot 0 that declares no
default value (`getDefaultValue()` is the empty string) and has no value set. -/
def exampleNoDefaultTemplate : GNEAttributeCarrier :=
  { tagProperty :=
      [{ exampleAttribute (SumoXMLAttr.other 8) 0 with hasDefaultValue := false, defaultValue := "" }]
    values := [] }

/-- The module after showing `exampleNoDefaultTemplate`. -/
def exampleNoDefaultShown : AttributesCreator :=
  (showAttributesCreatorModule exampleExt (some exampleNoDefaultTemplate) [] exampleCreator).state

/-- The row of `exampleNoDefaultShown` in slot 0. -/
def exampleNoDefaultRow : AttributesCreatorRow :=
  AttributesCreatorRow.create exampleExt exampleNoDefaultTemplate
    { exampleAttribute (SumoXMLAttr.other 8) 0 with hasDefaultValue := false, defaultValue := "" }

/-! ## Lemmas on getAttributesAndValues -/

theorem getAttributesAndValuesRows_cons {Val : Type} (ext : External Val) (includeAll : Bool)
    (row : Option AttributesCreatorRow) (post : List (Option AttributesCreatorRow))
    (baseObject : List (SumoBaseObjectCall Val)) :
    getAttributesAndValuesRows ext includeAll (row :: post) baseObject =
      getAttributesAndValuesRows ext includeAll post
        (getAttributesAndValuesRow ext includeAll baseObject row) := by
  simp [getAttributesAndValuesRows]

theorem addAttribute_key {Val : Type} (ext : External Val) (row : AttributesCreatorRow) :
    (addAttribute ext row).key = some row.attrProperties.attr := by
  unfold addAttribute
  simp only []
  repeat (first | rfl | split)

theorem addAttribute_of_declaredType {Val : Type} (ext : External Val) (row : AttributesCreatorRow)
    (T : CppType) (hT : declaredType row.attrProperties = some T) :
    addAttribute ext row = addAttributeOfType T row.attrProperties.attr (parseOrDefault ext T row) := by
  unfold declaredType at hT
  unfold addAttribute
  simp only []
  split_ifs at hT <;> cases hT <;> simp_all [addAttributeOfType]

theorem addAttribute_of_isPlainString {Val : Type} (ext : External Val) (row : AttributesCreatorRow)
    (h : isPlainString row.attrProperties) :
    addAttribute ext row = .addStringAttribute row.attrProperties.attr row.value := by
  obtain ⟨h1, h2, h3, h4, h5, h6, h7⟩ := h
  simp [addAttribute, h1, h2, h3, h4, h5, h6, h7]

theorem includeRow_iff (includeAll : Bool) (row : AttributesCreatorRow) :
    includeRow includeAll row = true ↔ InclusionCondition includeAll row := by
  unfold includeRow InclusionCondition
  simp only [Bool.and_eq_true, Bool.or_eq_true, Bool.not_eq_true', bne_iff_ne, ne_eq]
  constructor
  · rintro ⟨h1, h2⟩
    refine ⟨h1, ?_⟩
    rcases h2 with ((h | h | h) | h) | h
    · exact Or.inl h
    · exact Or.inr (Or.inl h)
    · exact Or.inr (Or.inr (Or.inl (fun e => h e.symm)))
    · exact Or.inr (Or.inr (Or.inr (Or.inl h)))
    · exact Or.inr (Or.inr (Or.inr (Or.inr h)))
  · rintro ⟨h1, h2⟩
    refine ⟨h1, ?_⟩
    rcases h2 with h | h | h | h | h
    · exact Or.inl (Or.inl (Or.inl h))
    · exact Or.inl (Or.inl (Or.inr (Or.inl h)))
    · exact Or.inl (Or.inl (Or.inr (Or.inr (fun e => h e.symm))))
    · exact Or.inl (Or.inr h)
    · exact Or.inr h

theorem getAttributesAndValuesRows_base {Val : Type} (ext : External Val) (includeAll : Bool)
    (rows : List (Option AttributesCreatorRow)) (baseObject : List (SumoBaseObjectCall Val)) :
    getAttributesAndValuesRows ext includeAll rows baseObject =
      baseObject ++ (includedRows includeAll rows).map (addAttribute ext) := by
  induction rows generalizing baseObject with
  | nil => simp [getAttributesAndValuesRows, includedRows]
  | cons row rows ih =>
    rw [getAttributesAndValuesRows_cons, ih]
    cases row with
    | none => simp [getAttributesAndValuesRow, includedRows]
    | some row =>
      by_cases hattr : row.attrProperties.attr = SumoXMLAttr.SUMO_ATTR_NOTHING
      · simp [getAttributesAndValuesRow, includedRows, hattr]
      · cases hincl : includeRow includeAll row
        · simp [getAttributesAndValuesRow, includedRows, hattr, hincl]
        · simp [getAttributesAndValuesRow, includedRows, hattr, hincl]

theorem includedRows_append (includeAll : Bool) (pre post : List (Option AttributesCreatorRow)) :
    includedRows includeAll (pre ++ post) =
      includedRows includeAll pre ++ includedRows includeAll post := by
  simp [includedRows, List.filterMap_append, List.filter_append]

theorem includedRows_cons_included (includeAll : Bool) (row : AttributesCreatorRow)
    (post : List (Option AttributesCreatorRow))
    (hattr : row.attrProperties.attr ≠ SumoXMLAttr.SUMO_ATTR_NOTHING)
    (hincl : includeRow includeAll row = true) :
    includedRows includeAll (some row :: post) = row :: includedRows includeAll post := by
  simp [includedRows, hattr, hincl]

theorem includedRows_cons_skipped (includeAll : Bool) (row : AttributesCreatorRow)
    (post : List (Option AttributesCreatorRow)) (hincl : includeRow includeAll row = false) :
    includedRows includeAll (some row :: post) = includedRows includeAll post := by
  simp [includedRows, hincl]

theorem map_addAttribute_key {Val : Type} (ext : External Val) (rows : List AttributesCreatorRow) :
    (rows.map (addAttribute ext)).map SumoBaseObjectCall.key =
      rows.map (fun row => some row.attrProperties.attr) := by
  simp [List.map_map, Function.comp_def, addAttribute_key]

/-! ## Lemmas on refreshRows, showAttributesCreatorModule and areValuesValid -/

theorem refreshRowsLoop_length {Val : Type} (ext : External Val) (createRows : Bool)
    (templateAC : GNEAttributeCarrier) (s : AttributesCreator)
    (attrs : List GNEAttributeProperties) (rows : List (Option AttributesCreatorRow))
    (showFlowEditor : Bool) :
    (refreshRowsLoop ext createRows templateAC s attrs rows showFlowEditor).rows.length =
      rows.length := by
  induction attrs generalizing rows showFlowEditor with
  | nil => simp [refreshRowsLoop]
  | cons a rest ih =>
    simp only [refreshRowsLoop]
    split
    · split
      · split
        · rw [ih]; simp
        · rfl
      · split
        · rfl
        · rfl
        · rw [ih]; simp
    · rw [ih]

theorem refreshRowsLoop_create_invariant {Val : Type} (ext : External Val)
    (templateAC : GNEAttributeCarrier) (s : AttributesCreator)
    (Q : Nat → AttributesCreatorRow → Prop)
    (attrs : List GNEAttributeProperties) (rows : List (Option AttributesCreatorRow))
    (showFlowEditor : Bool)
    (hrows : ∀ i row, rows.get? i = some (some row) → Q i row)
    (hattrs : ∀ a ∈ attrs, showAttribute s a = true →
      Q a.positionListed (AttributesCreatorRow.create ext templateAC a)) :
    ∀ i row, (refreshRowsLoop ext true templateAC s attrs rows showFlowEditor).rows.get? i =
      some (some row) → Q i row := by
  induction attrs generalizing rows showFlowEditor with
  | nil => simpa [refreshRowsLoop] using hrows
  | cons a rest ih =>
    have hrest : ∀ b ∈ rest, showAttribute s b = true →
        Q b.positionListed (AttributesCreatorRow.create ext templateAC b) :=
      fun b hb => hattrs b (List.mem_cons_of_mem _ hb)
    simp only [refreshRowsLoop]
    split
    · rename_i hshow
      simp only [if_true]
      split
      · apply ih _ _ _ hrest
        intro i row hi
        rw [List.get?_eq_getElem?, List.getElem?_set] at hi
        split at hi
        · rename_i heq
          simp only [Option.some.injEq] at hi
          subst hi
          subst heq
          exact hattrs a (List.mem_cons_self _ _) hshow
        · exact hrows i row (by rw [List.get?_eq_getElem?]; exact hi)
      · exact hrows
    · exact ih _ _ hrows hrest

theorem refreshRowsLoop_create_get_other {Val : Type} (ext : External Val)
    (templateAC : GNEAttributeCarrier) (s : AttributesCreator)
    (attrs : List GNEAttributeProperties) (rows : List (Option AttributesCreatorRow))
    (showFlowEditor : Bool) (i : Nat)
    (hi : ∀ a ∈ attrs, showAttribute s a = true → a.positionListed ≠ i) :
    (refreshRowsLoop ext true templateAC s attrs rows showFlowEditor).rows.get? i = rows.get? i := by
  induction attrs generalizing rows showFlowEditor with
  | nil => simp [refreshRowsLoop]
  | cons a rest ih =>
    have hrest : ∀ b ∈ rest, showAttribute s b = true → b.positionListed ≠ i :=
      fun b hb => hi b (List.mem_cons_of_mem _ hb)
    simp only [refreshRowsLoop]
    split
    · rename_i hshow
      simp only [if_true]
      split
      · rw [ih _ _ hrest, List.get?_eq_getElem?, List.get?_eq_getElem?, List.getElem?_set]
        simp [hi a (List.mem_cons_self _ _) hshow]
      · rfl
    · exact ih _ _ hrest

theorem refreshRowsLoop_create_get_displayed {Val : Type} (ext : External Val)
    (templateAC : GNEAttributeCarrier) (s : AttributesCreator)
    (attrs : List GNEAttributeProperties) (rows : List (Option AttributesCreatorRow))
    (showFlowEditor : Bool)
    (hok : (refreshRowsLoop ext true templateAC s attrs rows showFlowEditor).failure = none)
    (hnodup : (attrs.map (fun a => a.positionListed)).Nodup)
    (a : GNEAttributeProperties) (ha : a ∈ attrs) (hshow : showAttribute s a = true) :
    (refreshRowsLoop ext true templateAC s attrs rows showFlowEditor).rows.get? a.positionListed =
      some (some (AttributesCreatorRow.create ext templateAC a)) := by
  induction attrs generalizing rows showFlowEditor with
  | nil => simp at ha
  | cons b rest ih =>
    rw [List.map_cons, List.nodup_cons] at hnodup
    obtain ⟨hb, hnd⟩ := hnodup
    simp only [refreshRowsLoop] at hok ⊢
    rcases List.mem_cons.1 ha with rfl | hmem
    · simp only [hshow, if_true] at hok ⊢
      split
      · rename_i hlt
        rw [refreshRowsLoop_create_get_other, List.get?_eq_getElem?, List.getElem?_set]
        · simp [hlt]
        · intro c hc _ heq
          exact hb (List.mem_map.2 ⟨c, hc, heq⟩)
      · rename_i hlt
        simp [hlt] at hok
    · split
      · simp only [if_true] at hok ⊢
        split
        · rename_i hshowb hlt
          simp only [hshowb, hlt, if_true] at hok
          exact ih _ _ hok hnd hmem
        · rename_i hshowb hlt
          simp [hshowb, hlt] at hok
      · rename_i hshowb
        simp only [hshowb] at hok
        exact ih _ _ hok hnd hmem

theorem refreshRowsLoop_refresh_attrProperties {Val : Type} (ext : External Val)
    (templateAC : GNEAttributeCarrier) (s : AttributesCreator)
    (attrs : List GNEAttributeProperties) (rows : List (Option AttributesCreatorRow))
    (showFlowEditor : Bool) :
    (refreshRowsLoop ext false templateAC s attrs rows showFlowEditor).rows.map
        (Option.map AttributesCreatorRow.attrProperties) =
      rows.map (Option.map AttributesCreatorRow.attrProperties) := by
  induction attrs generalizing rows showFlowEditor with
  | nil => simp [refreshRowsLoop]
  | cons a rest ih =>
    simp only [refreshRowsLoop]
    split
    · simp only [Bool.false_eq_true, if_false]
      split
      · rfl
      · rfl
      · rename_i row hget
        rw [ih]
        apply List.ext_getElem?
        intro i
        rw [List.get?_eq_getElem?] at hget
        simp only [List.getElem?_map, List.getElem?_set]
        split
        · rename_i heq
          subst heq
          split
          · simp [hget, AttributesCreatorRow.refreshRow]
          · rename_i hlt
            rw [List.getElem?_eq_none (by omega)] at hget
            simp at hget
        · rfl
    · rw [ih]

theorem refreshRowsLoop_in_range {Val : Type} (ext : External Val) (createRows : Bool)
    (templateAC : GNEAttributeCarrier) (s : AttributesCreator)
    (attrs : List GNEAttributeProperties) (rows : List (Option AttributesCreatorRow))
    (showFlowEditor : Bool) (hpos : ∀ a ∈ attrs, a.positionListed < rows.length) :
    (refreshRowsLoop ext createRows templateAC s attrs rows showFlowEditor).failure ≠
      some Failure.out_of_range := by
  induction attrs generalizing rows showFlowEditor with
  | nil => simp [refreshRowsLoop]
  | cons a rest ih =>
    have ha : a.positionListed < rows.length := hpos a (List.mem_cons_self _ _)
    have hrest : ∀ (x : Option AttributesCreatorRow),
        ∀ b ∈ rest, b.positionListed < (rows.set a.positionListed x).length := by
      intro x b hb
      rw [List.length_set]
      exact hpos b (List.mem_cons_of_mem _ hb)
    simp only [refreshRowsLoop]
    cases hshow : showAttribute s a
    · simpa using ih _ _ (fun b hb => hpos b (List.mem_cons_of_mem _ hb))
    · cases createRows
      · simp only [if_true, Bool.false_eq_true, if_false]
        split
        · rename_i hget
          rw [List.get?_eq_getElem?, List.getElem?_eq_none_iff] at hget
          omega
        · simp
        · exact ih _ _ (hrest _)
      · simp only [if_true, ha]
        exact ih _ _ (hrest _)

theorem refreshRowsLoop_create_failure {Val : Type} (ext : External Val)
    (templateAC : GNEAttributeCarrier) (s : AttributesCreator)
    (attrs : List GNEAttributeProperties) (rows : List (Option AttributesCreatorRow))
    (showFlowEditor : Bool) :
    (refreshRowsLoop ext true templateAC s attrs rows showFlowEditor).failure = none ∨
    (refreshRowsLoop ext true templateAC s attrs rows showFlowEditor).failure =
      some Failure.out_of_range := by
  induction attrs generalizing rows showFlowEditor with
  | nil => simp [refreshRowsLoop]
  | cons a rest ih =>
    simp only [refreshRowsLoop]
    cases hshow : showAttribute s a
    · simpa using ih _ _
    · simp only [if_true]
      by_cases hlt : a.positionListed < rows.length
      · simp only [hlt, if_true]
        exact ih _ _
      · simp [hlt]

theorem destroy_rows_eq_replicate (rows : List (Option AttributesCreatorRow)) :
    rows.map (fun row => if row.isSome then none else row) = List.replicate rows.length none := by
  induction rows with
  | nil => rfl
  | cons row rows ih =>
    cases row <;> simp [ih, List.replicate_succ]

theorem areValuesValidLoop_in_range (rows : List (Option AttributesCreatorRow))
    (attrs : List GNEAttributeProperties) (hpos : ∀ a ∈ attrs, a.positionListed < rows.length) :
    ∃ result, areValuesValidLoop rows attrs = .ok result ∧
      (result = none ↔ ∀ a ∈ attrs, ∀ row, rows.get? a.positionListed = some (some row) →
        row.attributeValid = true) ∧
      (result = none ∨ result = some false) := by
  induction attrs with
  | nil => exact ⟨none, rfl, by simp, Or.inl rfl⟩
  | cons a rest ih =>
    obtain ⟨r, hr, hiff, hcases⟩ := ih (fun b hb => hpos b (List.mem_cons_of_mem _ hb))
    have ha : a.positionListed < rows.length := hpos a (List.mem_cons_self _ _)
    simp only [areValuesValidLoop]
    split
    · rename_i hget
      rw [List.get?_eq_getElem?, List.getElem?_eq_none_iff] at hget
      omega
    · rename_i hget
      refine ⟨r, hr, ?_, hcases⟩
      rw [hiff]
      constructor
      · intro h b hb row hrow
        rcases List.mem_cons.1 hb with rfl | hb
        · rw [hget] at hrow; simp at hrow
        · exact h b hb row hrow
      · intro h b hb
        exact h b (List.mem_cons_of_mem _ hb)
    · rename_i row hget
      cases hvalid : row.attributeValid
      · refine ⟨some false, by simp, ?_, Or.inr rfl⟩
        simp only [reduceCtorEq, false_iff]
        intro h
        have := h a (List.mem_cons_self _ _) row hget
        rw [hvalid] at this
        simp at this
      · refine ⟨r, by simpa using hr, ?_, hcases⟩
        rw [hiff]
        constructor
        · intro h b hb row2 hrow
          rcases List.mem_cons.1 hb with rfl | hb
          · rw [hget] at hrow
            simp only [Option.some.injEq] at hrow
            subst hrow
            exact hvalid
          · exact h b hb row2 hrow
        · intro h b hb
          exact h b (List.mem_cons_of_mem _ hb)

theorem showAttribute_iff (s : AttributesCreator) (a : GNEAttributeProperties) :
    showAttribute s a = true ↔ Displayed s.myHiddenAttributes s.editModes a := by
  unfold showAttribute Displayed
  cases hU : a.isUnique <;> cases hF : a.isFlowDefinition <;>
    cases hD : s.editModes.isCurrentSupermodeDemand <;>
    by_cases hH : a.attr ∈ s.myHiddenAttributes <;>
    by_cases hI : a.attr = SumoXMLAttr.SUMO_ATTR_ID <;>
    by_cases hT : a.attr = SumoXMLAttr.SUMO_ATTR_TYPE <;>
    by_cases hV : a.tagPropertyParent = SumoXMLTag.SUMO_TAG_VAPORIZER <;>
    by_cases hM : s.editModes.demandEditMode = DemandEditMode.DEMAND_VEHICLE <;>
    simp_all

theorem refreshRows_rows {Val : Type} (ext : External Val) (createRows : Bool)
    (s : AttributesCreator) (templateAC : GNEAttributeCarrier)
    (h : s.myTemplateAC = some templateAC) :
    (refreshRows ext createRows s).state.myAttributesCreatorRows =
      (refreshRowsLoop ext createRows templateAC s templateAC.tagProperty
        s.myAttributesCreatorRows false).rows := by
  simp only [refreshRows, h]
  generalize refreshRowsLoop ext createRows templateAC s templateAC.tagProperty
    s.myAttributesCreatorRows false = loop
  obtain ⟨rows, flag, failure⟩ := loop
  cases failure <;> cases flag <;> rfl

theorem refreshRows_failure {Val : Type} (ext : External Val) (createRows : Bool)
    (s : AttributesCreator) (templateAC : GNEAttributeCarrier)
    (h : s.myTemplateAC = some templateAC) :
    (refreshRows ext createRows s).failure =
      (refreshRowsLoop ext createRows templateAC s templateAC.tagProperty
        s.myAttributesCreatorRows false).failure := by
  simp only [refreshRows, h]
  generalize refreshRowsLoop ext createRows templateAC s templateAC.tagProperty
    s.myAttributesCreatorRows false = loop
  obtain ⟨rows, flag, failure⟩ := loop
  cases failure <;> cases flag <;> rfl

theorem refreshRows_length {Val : Type} (ext : External Val) (createRows : Bool)
    (s : AttributesCreator) :
    (refreshRows ext createRows s).state.myAttributesCreatorRows.length =
      s.myAttributesCreatorRows.length := by
  cases h : s.myTemplateAC with
  | none => simp [refreshRows, h]
  | some templateAC => rw [refreshRows_rows ext createRows s templateAC h, refreshRowsLoop_length]

theorem refreshRows_template {Val : Type} (ext : External Val) (createRows : Bool)
    (s : AttributesCreator) :
    (refreshRows ext createRows s).state.myTemplateAC = s.myTemplateAC := by
  cases h : s.myTemplateAC with
  | none => simp [refreshRows, h]
  | some templateAC =>
    simp only [refreshRows, h]
    generalize refreshRowsLoop ext createRows templateAC s templateAC.tagProperty
      s.myAttributesCreatorRows false = loop
    obtain ⟨rows, flag, failure⟩ := loop
    cases failure <;> cases flag <;> simp [h]

theorem showAttributesCreatorModule_rows {Val : Type} (ext : External Val)
    (templateAC : GNEAttributeCarrier) (hiddenAttributes : List SumoXMLAttr)
    (s : AttributesCreator) :
    (showAttributesCreatorModule ext (some templateAC) hiddenAttributes s).state.myAttributesCreatorRows =
      (showLoop ext templateAC hiddenAttributes s).rows := by
  unfold showAttributesCreatorModule showLoop
  simp only [destroy_rows_eq_replicate]
  rw [← refreshRows_rows ext true _ templateAC rfl]
  generalize refreshRows ext true _ = out
  obtain ⟨state, failure⟩ := out
  cases failure <;> rfl

theorem showAttributesCreatorModule_failure {Val : Type} (ext : External Val)
    (templateAC : GNEAttributeCarrier) (hiddenAttributes : List SumoXMLAttr)
    (s : AttributesCreator) :
    (showAttributesCreatorModule ext (some templateAC) hiddenAttributes s).failure =
      (showLoop ext templateAC hiddenAttributes s).failure := by
  unfold showAttributesCreatorModule showLoop
  simp only [destroy_rows_eq_replicate]
  rw [← refreshRows_failure ext true _ templateAC rfl]
  generalize refreshRows ext true _ = out
  obtain ⟨state, failure⟩ := out
  cases failure <;> rfl

theorem showAttributesCreatorModule_template {Val : Type} (ext : External Val)
    (templateAC : GNEAttributeCarrier) (hiddenAttributes : List SumoXMLAttr)
    (s : AttributesCreator) :
    (showAttributesCreatorModule ext (some templateAC) hiddenAttributes s).state.myTemplateAC =
      some templateAC := by
  unfold showAttributesCreatorModule
  simp only []
  have h := refreshRows_template ext true
    { s with
      myAttributesCreatorRows :=
        s.myAttributesCreatorRows.map (fun row => if row.isSome then none else row)
      myTemplateAC := some templateAC
      myHiddenAttributes := hiddenAttributes }
  revert h
  generalize refreshRows ext true _ = out
  obtain ⟨state, failure⟩ := out
  intro h
  cases failure <;> exact h

theorem showAttributesCreatorModule_length {Val : Type} (ext : External Val)
    (templateAC : Option GNEAttributeCarrier) (hiddenAttributes : List SumoXMLAttr)
    (s : AttributesCreator) :
    (showAttributesCreatorModule ext templateAC hiddenAttributes s).state.myAttributesCreatorRows.length =
      s.myAttributesCreatorRows.length := by
  cases templateAC with
  | none => simp [showAttributesCreatorModule]
  | some templateAC =>
    rw [showAttributesCreatorModule_rows, showLoop, refreshRowsLoop_length, List.length_replicate]

theorem showLoop_displayed_rows {Val : Type} (ext : External Val)
    (templateAC : GNEAttributeCarrier) (hiddenAttributes : List SumoXMLAttr)
    (s : AttributesCreator) (i : Nat) (row : AttributesCreatorRow)
    (h : (showLoop ext templateAC hiddenAttributes s).rows.get? i = some (some row)) :
    ∃ a ∈ templateAC.tagProperty, Displayed hiddenAttributes s.editModes a ∧
      a.positionListed = i ∧ row = AttributesCreatorRow.create ext templateAC a := by
  refine refreshRowsLoop_create_invariant ext templateAC _
    (fun i row => ∃ a ∈ templateAC.tagProperty, Displayed hiddenAttributes s.editModes a ∧
      a.positionListed = i ∧ row = AttributesCreatorRow.create ext templateAC a)
    templateAC.tagProperty _ false ?_ ?_ i row h
  · intro j r hj
    rw [List.get?_eq_getElem?, List.getElem?_replicate] at hj
    split at hj <;> simp at hj
  · intro a ha hshow
    exact ⟨a, ha, (showAttribute_iff _ a).1 hshow, rfl, rfl⟩

theorem refreshAttributesCreator_length {Val : Type} (ext : External Val) (s : AttributesCreator) :
    (refreshAttributesCreator ext s).state.myAttributesCreatorRows.length =
      s.myAttributesCreatorRows.length := by
  unfold refreshAttributesCreator
  split
  · exact refreshRows_length ext false s
  · rfl

theorem onCmdReset_length {Val : Type} (ext : External Val) (s : AttributesCreator) :
    (onCmdReset ext s).state.myAttributesCreatorRows.length =
      s.myAttributesCreatorRows.length := by
  unfold onCmdReset
  split
  · rw [refreshRows_length]
  · rfl

theorem areValuesValidLoop_no_out_of_range (rows : List (Option AttributesCreatorRow))
    (attrs : List GNEAttributeProperties) (hpos : ∀ a ∈ attrs, a.positionListed < rows.length) :
    areValuesValidLoop rows attrs ≠ .error Failure.out_of_range := by
  obtain ⟨r, hr, _⟩ := areValuesValidLoop_in_range rows attrs hpos
  rw [hr]
  simp

theorem areValuesValid_no_out_of_range (s : AttributesCreator) (templateAC : GNEAttributeCarrier)
    (ht : s.myTemplateAC = some templateAC)
    (hpos : ∀ a ∈ templateAC.tagProperty, a.positionListed < s.myAttributesCreatorRows.length) :
    areValuesValid s ≠ .error Failure.out_of_range := by
  obtain ⟨r, hr, _, hcases⟩ := areValuesValidLoop_in_range s.myAttributesCreatorRows _ hpos
  simp only [areValuesValid, ht, hr]
  rcases hcases with rfl | rfl
  · simp only []
    split <;> simp
  · simp

theorem refreshRowsLoop_showFlowEditor {Val : Type} (ext : External Val) (createRows : Bool)
    (templateAC : GNEAttributeCarrier) (s : AttributesCreator)
    (attrs : List GNEAttributeProperties) (rows : List (Option AttributesCreatorRow))
    (showFlowEditor : Bool)
    (hok : (refreshRowsLoop ext createRows templateAC s attrs rows showFlowEditor).failure = none) :
    (refreshRowsLoop ext createRows templateAC s attrs rows showFlowEditor).showFlowEditor =
      (showFlowEditor || attrs.any (fun a => a.isFlowDefinition)) := by
  induction attrs generalizing rows showFlowEditor with
  | nil => simp [refreshRowsLoop]
  | cons a rest ih =>
    simp only [refreshRowsLoop] at hok ⊢
    have hflag : ((if a.isFlowDefinition = true then true else showFlowEditor) ||
        rest.any (fun a => a.isFlowDefinition)) =
        (showFlowEditor || (a :: rest).any (fun a => a.isFlowDefinition)) := by
      cases hflow : a.isFlowDefinition <;> cases showFlowEditor <;> simp [hflow]
    cases hshow : showAttribute s a
    · simp only [hshow, Bool.false_eq_true, if_false] at hok ⊢
      rw [ih _ _ hok, hflag]
    · simp only [hshow, if_true] at hok ⊢
      cases createRows
      · simp only [Bool.false_eq_true, if_false] at hok ⊢
        cases hget : rows.get? a.positionListed with
        | none =>
          simp only [hget] at hok
          simp at hok
        | some slot =>
          cases slot with
          | none =>
            simp only [hget] at hok
            simp at hok
          | some row =>
            simp only [hget] at hok ⊢
            rw [ih _ _ hok, hflag]
      · simp only [if_true] at hok ⊢
        by_cases hlt : a.positionListed < rows.length
        · simp only [hlt, if_true] at hok ⊢
          rw [ih _ _ hok, hflag]
        · simp [hlt] at hok

theorem refreshRows_flowEditor_shown {Val : Type} (ext : External Val) (createRows : Bool)
    (s : AttributesCreator) (templateAC : GNEAttributeCarrier)
    (h : s.myTemplateAC = some templateAC)
    (hok : (refreshRows ext createRows s).failure = none) :
    (refreshRows ext createRows s).state.myFlowEditor.shown = true ↔
      ∃ a ∈ templateAC.tagProperty, a.isFlowDefinition = true := by
  rw [refreshRows_failure ext createRows s templateAC h] at hok
  have hflag := refreshRowsLoop_showFlowEditor ext createRows templateAC s _ _ false hok
  simp only [refreshRows, h]
  revert hok hflag
  generalize refreshRowsLoop ext createRows templateAC s templateAC.tagProperty
    s.myAttributesCreatorRows false = loop
  obtain ⟨rows, flag, failure⟩ := loop
  intro hok hflag
  simp only at hok hflag
  subst hok
  simp only [Bool.false_or] at hflag
  cases flag
  · simp only [Bool.false_eq_true, if_false, FlowEditor.hideFlowEditor]
    constructor
    · intro h; simp at h
    · rintro ⟨a, ha, hflow⟩
      have : templateAC.tagProperty.any (fun a => a.isFlowDefinition) = true :=
        List.any_eq_true.2 ⟨a, ha, hflow⟩
      rw [← hflag] at this
      simp at this
  · simp only [if_true, FlowEditor.showFlowEditor, true_iff]
    obtain ⟨a, ha, hflow⟩ := List.any_eq_true.1 hflag.symm
    exact ⟨a, ha, hflow⟩

theorem showAttributesCreatorModule_flowEditor {Val : Type} (ext : External Val)
    (templateAC : GNEAttributeCarrier) (hiddenAttributes : List SumoXMLAttr)
    (s : AttributesCreator)
    (hok : (showAttributesCreatorModule ext (some templateAC) hiddenAttributes s).failure = none) :
    (showAttributesCreatorModule ext (some templateAC) hiddenAttributes s).state.myFlowEditor.shown =
      true ↔ ∃ a ∈ templateAC.tagProperty, a.isFlowDefinition = true := by
  unfold showAttributesCreatorModule at hok ⊢
  simp only at hok ⊢
  have key := refreshRows_flowEditor_shown ext true
    { s with
      myAttributesCreatorRows :=
        s.myAttributesCreatorRows.map (fun row => if row.isSome then none else row)
      myTemplateAC := some templateAC
      myHiddenAttributes := hiddenAttributes } templateAC rfl
  revert hok key
  generalize refreshRows ext true _ = out
  obtain ⟨state, failure⟩ := out
  intro hok key
  cases failure with
  | none => exact key rfl
  | some f => simp at hok

theorem refreshRowsLoop_refresh_ok {Val : Type} (ext : External Val)
    (templateAC : GNEAttributeCarrier) (s : AttributesCreator)
    (attrs : List GNEAttributeProperties) (rows : List (Option AttributesCreatorRow))
    (showFlowEditor : Bool)
    (hrows : ∀ a ∈ attrs, showAttribute s a = true →
      ∃ row, rows.get? a.positionListed = some (some row)) :
    (refreshRowsLoop ext false templateAC s attrs rows showFlowEditor).failure = none := by
  induction attrs generalizing rows showFlowEditor with
  | nil => simp [refreshRowsLoop]
  | cons a rest ih =>
    simp only [refreshRowsLoop]
    cases hshow : showAttribute s a
    · simp only [Bool.false_eq_true, if_false]
      exact ih _ _ (fun b hb => hrows b (List.mem_cons_of_mem _ hb))
    · simp only [if_true, Bool.false_eq_true, if_false]
      obtain ⟨row, hrow⟩ := hrows a (List.mem_cons_self _ _) hshow
      simp only [hrow]
      apply ih
      intro b hb hshowb
      obtain ⟨rowb, hrowb⟩ := hrows b (List.mem_cons_of_mem _ hb) hshowb
      rw [List.get?_eq_getElem?] at hrow hrowb ⊢
      rw [List.getElem?_set]
      split
      · rename_i heq
        have hlt : a.positionListed < rows.length := by
          by_contra hge
          rw [List.getElem?_eq_none (by omega)] at hrow
          simp at hrow
        simp [hlt]
      · exact ⟨rowb, hrowb⟩

/-! ## Lemmas on sequences of operations -/

theorem refreshRowsLoop_create_occupied_mono {Val : Type} (ext : External Val)
    (templateAC : GNEAttributeCarrier) (s : AttributesCreator)
    (attrs : List GNEAttributeProperties) (rows : List (Option AttributesCreatorRow))
    (showFlowEditor : Bool) (i : Nat) (row : AttributesCreatorRow)
    (hrow : rows.get? i = some (some row)) :
    ∃ row2, (refreshRowsLoop ext true templateAC s attrs rows showFlowEditor).rows.get? i =
      some (some row2) := by
  induction attrs generalizing rows showFlowEditor row with
  | nil => exact ⟨row, by simpa [refreshRowsLoop] using hrow⟩
  | cons a rest ih =>
    simp only [refreshRowsLoop]
    cases hshow : showAttribute s a
    · simp only [Bool.false_eq_true, if_false]
      exact ih _ _ row hrow
    · simp only [if_true]
      by_cases hlt : a.positionListed < rows.length
      · simp only [hlt, if_true]
        by_cases heq : a.positionListed = i
        · subst heq
          apply ih _ _ (AttributesCreatorRow.create ext templateAC a)
          rw [List.get?_eq_getElem?, List.getElem?_set]
          simp [hlt]
        · apply ih _ _ row
          rw [List.get?_eq_getElem?, List.getElem?_set]
          rw [List.get?_eq_getElem?] at hrow
          simp [heq, hrow]
      · simp only [hlt, if_false]
        exact ⟨row, hrow⟩

theorem refreshRowsLoop_create_occupied {Val : Type} (ext : External Val)
    (templateAC : GNEAttributeCarrier) (s : AttributesCreator)
    (attrs : List GNEAttributeProperties) (rows : List (Option AttributesCreatorRow))
    (showFlowEditor : Bool)
    (hok : (refreshRowsLoop ext true templateAC s attrs rows showFlowEditor).failure = none)
    (a : GNEAttributeProperties) (ha : a ∈ attrs) (hshow : showAttribute s a = true) :
    ∃ row, (refreshRowsLoop ext true templateAC s attrs rows showFlowEditor).rows.get?
      a.positionListed = some (some row) := by
  induction attrs generalizing rows showFlowEditor with
  | nil => simp at ha
  | cons b rest ih =>
    simp only [refreshRowsLoop] at hok ⊢
    rcases List.mem_cons.1 ha with rfl | hmem
    · simp only [hshow, if_true] at hok ⊢
      by_cases hlt : a.positionListed < rows.length
      · simp only [hlt, if_true] at hok ⊢
        apply refreshRowsLoop_create_occupied_mono ext templateAC s rest _ _ _
          (AttributesCreatorRow.create ext templateAC a)
        rw [List.get?_eq_getElem?, List.getElem?_set]
        simp [hlt]
      · simp [hlt] at hok
    · cases hshowb : showAttribute s b
      · simp only [hshowb, Bool.false_eq_true, if_false] at hok ⊢
        exact ih _ _ hok hmem
      · simp only [hshowb, if_true] at hok ⊢
        by_cases hlt : b.positionListed < rows.length
        · simp only [hlt, if_true] at hok ⊢
          exact ih _ _ hok hmem
        · simp [hlt] at hok

theorem refreshRows_hidden_editModes {Val : Type} (ext : External Val) (createRows : Bool)
    (s : AttributesCreator) :
    (refreshRows ext createRows s).state.myHiddenAttributes = s.myHiddenAttributes ∧
    (refreshRows ext createRows s).state.editModes = s.editModes := by
  cases h : s.myTemplateAC with
  | none => simp [refreshRows, h]
  | some templateAC =>
    simp only [refreshRows, h]
    generalize refreshRowsLoop ext createRows templateAC s templateAC.tagProperty
      s.myAttributesCreatorRows false = loop
    obtain ⟨rows, flag, failure⟩ := loop
    cases failure <;> cases flag <;> simp

theorem showAttributesCreatorModule_hidden_editModes {Val : Type} (ext : External Val)
    (templateAC : GNEAttributeCarrier) (hiddenAttributes : List SumoXMLAttr)
    (s : AttributesCreator) :
    (showAttributesCreatorModule ext (some templateAC) hiddenAttributes s).state.myHiddenAttributes =
      hiddenAttributes ∧
    (showAttributesCreatorModule ext (some templateAC) hiddenAttributes s).state.editModes =
      s.editModes := by
  unfold showAttributesCreatorModule
  simp only []
  have h := refreshRows_hidden_editModes ext true
    { s with
      myAttributesCreatorRows :=
        s.myAttributesCreatorRows.map (fun row => if row.isSome then none else row)
      myTemplateAC := some templateAC
      myHiddenAttributes := hiddenAttributes }
  revert h
  generalize refreshRows ext true _ = out
  obtain ⟨state, failure⟩ := out
  intro h
  cases failure <;> exact h

theorem occupied_of_map_attrProperties (rows rows2 : List (Option AttributesCreatorRow))
    (hmap : rows2.map (Option.map AttributesCreatorRow.attrProperties) =
      rows.map (Option.map AttributesCreatorRow.attrProperties))
    (i : Nat) (row : AttributesCreatorRow) (hrow : rows.get? i = some (some row)) :
    ∃ row2, rows2.get? i = some (some row2) := by
  have h := congrArg (fun l => l.get? i) hmap
  simp only [List.get?_eq_getElem?, List.getElem?_map] at h hrow
  rw [hrow] at h
  cases h2 : rows2[i]? with
  | none => rw [h2] at h; simp at h
  | some slot =>
    cases slot with
    | none => rw [h2] at h; simp at h
    | some row2 => exact ⟨row2, by rw [List.get?_eq_getElem?]; exact h2⟩

theorem refreshAttributesCreator_rows_attrProperties {Val : Type} (ext : External Val)
    (s : AttributesCreator) :
    (refreshAttributesCreator ext s).state.myAttributesCreatorRows.map
        (Option.map AttributesCreatorRow.attrProperties) =
      s.myAttributesCreatorRows.map (Option.map AttributesCreatorRow.attrProperties) := by
  unfold refreshAttributesCreator
  split
  · rename_i h
    cases ht : s.myTemplateAC with
    | none => simp [ht] at h
    | some templateAC =>
      rw [refreshRows_rows ext false s templateAC ht, refreshRowsLoop_refresh_attrProperties]
  · rfl

theorem RowsPresent_construct {Val : Type} (ext : External Val) (editModes : EditModes)
    (flowEditor : FlowEditor) (shown resetButtonEnabled : Bool) :
    RowsPresent (AttributesCreator.construct ext editModes flowEditor shown resetButtonEnabled) := by
  intro templateAC h
  simp [AttributesCreator.construct] at h

theorem RowsPresent_apply {Val : Type} (ext : External Val) (op : Operation)
    (s : AttributesCreator) (hs : RowsPresent s)
    (hop : (∃ templateAC hiddenAttributes,
        op = Operation.showAttributesCreatorModule templateAC hiddenAttributes) →
      (op.apply ext s).failure = none) :
    RowsPresent (op.apply ext s).state := by
  cases op with
  | showAttributesCreatorModule templateAC hiddenAttributes =>
    have hok := hop ⟨_, _, rfl⟩
    simp only [Operation.apply] at hok ⊢
    cases templateAC with
    | none => simp [showAttributesCreatorModule] at hok
    | some t =>
      intro t2 ht2 a ha hdisp
      rw [showAttributesCreatorModule_template] at ht2
      simp only [Option.some.injEq] at ht2
      subst ht2
      rw [(showAttributesCreatorModule_hidden_editModes ext t hiddenAttributes s).1,
        (showAttributesCreatorModule_hidden_editModes ext t hiddenAttributes s).2] at hdisp
      rw [showAttributesCreatorModule_failure] at hok
      rw [showAttributesCreatorModule_rows]
      exact refreshRowsLoop_create_occupied ext t _ t.tagProperty _ false hok a ha
        ((showAttribute_iff _ a).2 hdisp)
  | hideAttributesCreatorModule => exact hs
  | refreshAttributesCreator =>
    simp only [Operation.apply]
    intro t ht a ha hdisp
    have hmap := (refreshAttributesCreator_rows_attrProperties ext s)
    have hframe : (refreshAttributesCreator ext s).state.myTemplateAC = s.myTemplateAC ∧
        (refreshAttributesCreator ext s).state.myHiddenAttributes = s.myHiddenAttributes ∧
        (refreshAttributesCreator ext s).state.editModes = s.editModes := by
      unfold refreshAttributesCreator
      split
      · exact ⟨refreshRows_template ext false s, refreshRows_hidden_editModes ext false s⟩
      · exact ⟨rfl, rfl, rfl⟩
    rw [hframe.1] at ht
    rw [hframe.2.1, hframe.2.2] at hdisp
    obtain ⟨row, hrow⟩ := hs t ht a ha hdisp
    exact occupied_of_map_attrProperties _ _ hmap _ row hrow
  | disableAttributesCreator =>
    simp only [Operation.apply]
    intro t ht a ha hdisp
    obtain ⟨row, hrow⟩ := hs t ht a ha hdisp
    refine ⟨row.disableRow ext, ?_⟩
    simp only [disableAttributesCreator, List.get?_eq_getElem?, List.getElem?_map] at hrow ⊢
    rw [hrow]
    rfl
  | onCmdReset =>
    simp only [Operation.apply]
    cases hts : s.myTemplateAC with
    | none =>
      have : onCmdReset ext s = ⟨s, none⟩ := by simp [onCmdReset, hts]
      rw [this]
      exact hs
    | some t0 =>
      have hreset : onCmdReset ext s = refreshRows ext false
          { s with myTemplateAC := some (t0.resetDefaultValues ext) } := by
        simp [onCmdReset, hts]
      rw [hreset]
      intro t ht a ha hdisp
      rw [refreshRows_template] at ht
      simp only [Option.some.injEq] at ht
      subst ht
      rw [(refreshRows_hidden_editModes ext false _).1,
        (refreshRows_hidden_editModes ext false _).2] at hdisp
      obtain ⟨row, hrow⟩ := hs t0 hts a ha hdisp
      rw [refreshRows_rows ext false _ (t0.resetDefaultValues ext) rfl]
      exact occupied_of_map_attrProperties _ _
        (refreshRowsLoop_refresh_attrProperties ext _ _ _ _ false) _ row hrow

theorem RowsPresent_run {Val : Type} (ext : External Val) (ops : List Operation)
    (s : AttributesCreator) (hs : RowsPresent s) (hops : showsReturnNormally ext ops s) :
    RowsPresent (run ext ops s) := by
  induction ops generalizing s with
  | nil => exact hs
  | cons op ops ih =>
    simp only [run, List.foldl_cons]
    exact ih _ (RowsPresent_apply ext op s hs hops.1) hops.2

/-! ## The claims -/

/-- C1, as stated, fails: showing `exampleFarTemplate` succeeds and leaves no
row and the flow editor hidden, so every existing row is valid; the template
lists its undisplayed attribute at position 5 of a three-slot array, and
`areValuesValid` ends with `out_of_range` instead of returning true. -/
theorem areValuesValid_out_of_range :
    (showAttributesCreatorModule exampleExt (some exampleFarTemplate) [] exampleCreator).failure =
      none ∧
    (showAttributesCreatorModule exampleExt (some exampleFarTemplate) []
      exampleCreator).state.myAttributesCreatorRows = [none, none, none] ∧
    (showAttributesCreatorModule exampleExt (some exampleFarTemplate) []
      exampleCreator).state.myFlowEditor.shown = false ∧
    areValuesValid (showAttributesCreatorModule exampleExt (some exampleFarTemplate) []
      exampleCreator).state = .error Failure.out_of_range :=
  ⟨by decide, by decide, by decide, rfl⟩

/-- C1, amended: when every attribute of the template has a listed position
inside the row array, `showAttributesCreatorModule` succeeds, and in the state
it reaches `areValuesValid` returns, and it returns true if and only if every
existing row reports `isAttributeValid` and, when the flow editor is shown,
`areFlowValuesValid` is true. -/
theorem areValuesValid_after_show {Val : Type} (ext : External Val) (s : AttributesCreator)
    (templateAC : GNEAttributeCarrier) (hiddenAttributes : List SumoXMLAttr)
    (hpos : ∀ a ∈ templateAC.tagProperty, a.positionListed < s.myAttributesCreatorRows.length) :
    (showAttributesCreatorModule ext (some templateAC) hiddenAttributes s).failure = none ∧
    ∃ result : Bool,
      areValuesValid (showAttributesCreatorModule ext (some templateAC) hiddenAttributes s).state =
        .ok result ∧
      (result = true ↔
        (∀ row, some row ∈ (showAttributesCreatorModule ext (some templateAC) hiddenAttributes
            s).state.myAttributesCreatorRows → row.attributeValid = true) ∧
        ((showAttributesCreatorModule ext (some templateAC) hiddenAttributes
            s).state.myFlowEditor.shown = true →
          (showAttributesCreatorModule ext (some templateAC) hiddenAttributes
            s).state.myFlowEditor.flowValuesValid = true)) := by
  have hok : (showAttributesCreatorModule ext (some templateAC) hiddenAttributes s).failure =
      none := by
    rw [showAttributesCreatorModule_failure, showLoop]
    rcases refreshRowsLoop_create_failure ext templateAC _ templateAC.tagProperty
      (List.replicate s.myAttributesCreatorRows.length none) false with h | h
    · exact h
    · exact absurd h (refreshRowsLoop_in_range ext true templateAC _ _ _ false
        (fun a ha => by rw [List.length_replicate]; exact hpos a ha))
  refine ⟨hok, ?_⟩
  have htemplate := showAttributesCreatorModule_template ext templateAC hiddenAttributes s
  have hlen := showAttributesCreatorModule_length ext (some templateAC) hiddenAttributes s
  have hlisted : ∀ i row,
      (showAttributesCreatorModule ext (some templateAC) hiddenAttributes
        s).state.myAttributesCreatorRows.get? i = some (some row) →
      ∃ a ∈ templateAC.tagProperty, a.positionListed = i := by
    intro i row h
    rw [showAttributesCreatorModule_rows] at h
    obtain ⟨a, ha, _, hi, _⟩ := showLoop_displayed_rows ext templateAC hiddenAttributes s i row h
    exact ⟨a, ha, hi⟩
  revert htemplate hlen hlisted
  generalize (showAttributesCreatorModule ext (some templateAC) hiddenAttributes s).state = st
  intro htemplate hlen hlisted
  obtain ⟨r, hr, hiff, hcases⟩ := areValuesValidLoop_in_range st.myAttributesCreatorRows
    templateAC.tagProperty (fun a ha => by rw [hlen]; exact hpos a ha)
  have hall : r = none ↔ ∀ row, some row ∈ st.myAttributesCreatorRows → row.attributeValid = true := by
    rw [hiff]
    constructor
    · intro h row hmem
      obtain ⟨i, hi⟩ := List.mem_iff_get?.1 hmem
      obtain ⟨a, ha, rfl⟩ := hlisted i row hi
      exact h a ha row hi
    · intro h a _ row hrow
      exact h row (List.mem_iff_get?.2 ⟨_, hrow⟩)
  simp only [areValuesValid, htemplate, hr]
  rcases hcases with rfl | rfl
  · have hvalid := hall.1 rfl
    simp only []
    cases hshown : st.myFlowEditor.shown
    · exact ⟨true, by simp, fun _ => ⟨hvalid, fun h => by simp at h⟩, fun _ => rfl⟩
    · refine ⟨st.myFlowEditor.flowValuesValid, by simp, ?_⟩
      constructor
      · intro h; exact ⟨hvalid, fun _ => h⟩
      · intro h; exact h.2 rfl
  · refine ⟨false, rfl, ?_⟩
    constructor
    · intro h; simp at h
    · intro h
      have := hall.2 h.1
      simp at this

/-- C1, amended, at a concrete input: the attributes of `exampleTemplate` are
listed at 0 and 1 of three slots; showing it succeeds, both rows are valid, the
flow editor is hidden, and `areValuesValid` returns true. -/
theorem areValuesValid_after_show_witness :
    (∀ a ∈ exampleTemplate.tagProperty,
      a.positionListed < exampleCreator.myAttributesCreatorRows.length) ∧
    areValuesValid (showAttributesCreatorModule exampleExt (some exampleTemplate) []
      exampleCreator).state = .ok true ∧
    (showAttributesCreatorModule exampleExt (some exampleTemplate) [] exampleCreator).failure = none ∧
    ∃ result : Bool,
      areValuesValid (showAttributesCreatorModule exampleExt (some exampleTemplate) []
        exampleCreator).state = .ok result ∧
      (result = true ↔
        (∀ row, some row ∈ (showAttributesCreatorModule exampleExt (some exampleTemplate) []
            exampleCreator).state.myAttributesCreatorRows → row.attributeValid = true) ∧
        ((showAttributesCreatorModule exampleExt (some exampleTemplate) []
            exampleCreator).state.myFlowEditor.shown = true →
          (showAttributesCreatorModule exampleExt (some exampleTemplate) []
            exampleCreator).state.myFlowEditor.flowValuesValid = true)) :=
  ⟨by decide, rfl,
    areValuesValid_after_show exampleExt exampleCreator exampleTemplate [] (by decide)⟩

/-- C2: for an included row whose attribute is declared int, float, bool,
position, time, color or list of strings, with `T` the C++ type of that kind,
the calls `getAttributesAndValues` makes are: those already recorded, one per
included row of the slots before, then one call of the method for `T` under the
attribute key of the row, whose value is `parse<T>` of the row text when
`canParse<T>` accepts the text and `parse<T>` of the declared default otherwise,
then one per included row of the slots after, then the flow editor's part.  No
other call is made for the row, so a text that does not parse is not written. -/
theorem getAttributesAndValues_typed_row {Val : Type} (ext : External Val) (s : AttributesCreator)
    (baseObject : List (SumoBaseObjectCall Val)) (includeAll : Bool)
    (pre post : List (Option AttributesCreatorRow)) (row : AttributesCreatorRow) (T : CppType)
    (hrows : s.myAttributesCreatorRows = pre ++ some row :: post)
    (hattr : row.attrProperties.attr ≠ SumoXMLAttr.SUMO_ATTR_NOTHING)
    (hincl : includeRow includeAll row = true)
    (hT : declaredType row.attrProperties = some T) :
    ∃ before after : List (SumoBaseObjectCall Val),
      getAttributesAndValues ext s baseObject includeAll =
        baseObject ++ before ++
          [addAttributeOfType T row.attrProperties.attr
            (if ext.canParse T row.value = true then ext.parse T row.value
             else ext.parse T row.attrProperties.defaultValue)] ++
          after ++
          (if s.myFlowEditor.shown = true then [SumoBaseObjectCall.getFlowAttributes] else []) ∧
      before.map SumoBaseObjectCall.key =
        (includedRows includeAll pre).map (fun r => some r.attrProperties.attr) ∧
      after.map SumoBaseObjectCall.key =
        (includedRows includeAll post).map (fun r => some r.attrProperties.attr) := by
  refine ⟨(includedRows includeAll pre).map (addAttribute ext),
    (includedRows includeAll post).map (addAttribute ext), ?_,
    map_addAttribute_key ext _, map_addAttribute_key ext _⟩
  have hcall : addAttribute ext row =
      addAttributeOfType T row.attrProperties.attr
        (if ext.canParse T row.value = true then ext.parse T row.value
         else ext.parse T row.attrProperties.defaultValue) :=
    addAttribute_of_declaredType ext row T hT
  unfold getAttributesAndValues
  simp only [getAttributesAndValuesRows_base, hrows, includedRows_append,
    includedRows_cons_included includeAll row post hattr hincl]
  split <;> simp [hcall]

/-- C2, at a concrete input: the int row of `exampleShown`, in slot 1, holds the
text "x", which does not parse; the calls made are the one for the string row of
slot 0 and, for the int row, `addIntAttribute` with the parsed default "d". -/
theorem getAttributesAndValues_typed_row_witness :
    exampleShown.myAttributesCreatorRows = [some exampleStringRow] ++ some exampleIntRow :: [none] ∧
    exampleExt.canParse CppType.int exampleIntRow.value = false ∧
    getAttributesAndValues exampleExt exampleShown [] true =
      [SumoBaseObjectCall.addStringAttribute (SumoXMLAttr.other 8) "x",
       SumoBaseObjectCall.addIntAttribute (SumoXMLAttr.other 9) (CppType.int, "d")] ∧
    ∃ before after : List (SumoBaseObjectCall (CppType × String)),
      getAttributesAndValues exampleExt exampleShown [] true =
        [] ++ before ++
          [addAttributeOfType CppType.int exampleIntRow.attrProperties.attr
            (if exampleExt.canParse CppType.int exampleIntRow.value = true then
              exampleExt.parse CppType.int exampleIntRow.value
             else exampleExt.parse CppType.int exampleIntRow.attrProperties.defaultValue)] ++
          after ++
          (if exampleShown.myFlowEditor.shown = true then [SumoBaseObjectCall.getFlowAttributes]
           else []) ∧
      before.map SumoBaseObjectCall.key =
        (includedRows true [some exampleStringRow]).map (fun r => some r.attrProperties.attr) ∧
      after.map SumoBaseObjectCall.key =
        (includedRows true [none]).map (fun r => some r.attrProperties.attr) :=
  ⟨by decide, by decide, by decide,
    getAttributesAndValues_typed_row exampleExt exampleShown [] true [some exampleStringRow] [none]
      exampleIntRow CppType.int (by decide) (by decide) (by decide) (by decide)⟩

/-- C3: a row whose attribute is a list of positions (list flag and position
flag set, not int, float or bool), included with `includeAll`, is written by
`addPositionAttribute` with the text parsed as a single `Position`; no
`addPositionVectorAttribute` call is made. -/
theorem getAttributesAndValues_position_list :
    (∃ row, exampleShapeShown.myAttributesCreatorRows = [some row, none, none] ∧
      row.attrProperties.isList = true ∧ row.attrProperties.isposition = true ∧
      row.attrProperties.isInt = false ∧ row.attrProperties.isFloat = false ∧
      row.attrProperties.isBool = false ∧ includeRow true row = true) ∧
    getAttributesAndValues exampleExt exampleShapeShown [] true =
      [SumoBaseObjectCall.addPositionAttribute (SumoXMLAttr.other 7) (CppType.Position, "0,0 1,1")] ∧
    getAttributesAndValues exampleExt exampleShapeShown [] true ≠
      [SumoBaseObjectCall.addPositionVectorAttribute (SumoXMLAttr.other 7)
        (CppType.PositionVector, "0,0 1,1")] := by
  refine ⟨⟨_, rfl, ?_⟩, ?_⟩ <;> decide

/-- C5, as stated, fails for both values of `includeAll`.  After
`disableAttributesCreator` the module holds two rows with attributes other than
`SUMO_ATTR_NOTHING`, both disabled, and with `includeAll = true` nothing is
written.  After showing `exampleDefaultTemplate` the module holds one enabled
row with an attribute other than `SUMO_ATTR_NOTHING` whose value is its default,
and with `includeAll = false` nothing is written. -/
theorem getAttributesAndValues_row_not_written :
    ((disableAttributesCreator exampleExt exampleShown).myAttributesCreatorRows =
      [some (exampleStringRow.disableRow exampleExt), some (exampleIntRow.disableRow exampleExt),
       none] ∧
    (exampleStringRow.disableRow exampleExt).attrProperties.attr = SumoXMLAttr.other 8 ∧
    (exampleIntRow.disableRow exampleExt).attrProperties.attr = SumoXMLAttr.other 9 ∧
    (exampleStringRow.disableRow exampleExt).enabled = false ∧
    (exampleIntRow.disableRow exampleExt).enabled = false ∧
    getAttributesAndValues exampleExt (disableAttributesCreator exampleExt exampleShown) [] true =
      []) ∧
    (exampleDefaultShown.myAttributesCreatorRows =
      [some (AttributesCreatorRow.create exampleExt exampleDefaultTemplate
        (exampleAttribute (SumoXMLAttr.other 8) 0)), none, none] ∧
    (AttributesCreatorRow.create exampleExt exampleDefaultTemplate
      (exampleAttribute (SumoXMLAttr.other 8) 0)).enabled = true ∧
    (AttributesCreatorRow.create exampleExt exampleDefaultTemplate
      (exampleAttribute (SumoXMLAttr.other 8) 0)).value = "d" ∧
    getAttributesAndValues exampleExt exampleDefaultShown [] false = []) := by
  decide

/-- C5, amended: for both values of `includeAll`, the calls `getAttributesAndValues`
makes for the rows are, in slot order, exactly one call per existing row whose
attribute is not `SUMO_ATTR_NOTHING` and which passes the inclusion test, under
the attribute key of that row; they follow the calls already recorded and
precede the flow editor's part. -/
theorem getAttributesAndValues_one_entry_per_included_row {Val : Type} (ext : External Val)
    (s : AttributesCreator) (baseObject : List (SumoBaseObjectCall Val)) (includeAll : Bool) :
    ∃ written : List (SumoBaseObjectCall Val),
      getAttributesAndValues ext s baseObject includeAll =
        baseObject ++ written ++
          (if s.myFlowEditor.shown = true then [SumoBaseObjectCall.getFlowAttributes] else []) ∧
      written.map SumoBaseObjectCall.key =
        (includedRows includeAll s.myAttributesCreatorRows).map
          (fun row => some row.attrProperties.attr) := by
  refine ⟨(includedRows includeAll s.myAttributesCreatorRows).map (addAttribute ext), ?_, ?_⟩
  · unfold getAttributesAndValues
    simp only [getAttributesAndValuesRows_base]
    split <;> simp
  · simp [List.map_map, Function.comp_def, addAttribute_key]

/-- C6: after a successful `showAttributesCreatorModule(template, hidden)` on a
template whose attributes have pairwise distinct listed positions, an attribute
of the template has a row at its listed position if and only if it passes the
display filter; the row it then has is the one created for it. -/
theorem showAttributesCreatorModule_row_iff_displayed {Val : Type} (ext : External Val)
    (s : AttributesCreator) (templateAC : GNEAttributeCarrier)
    (hiddenAttributes : List SumoXMLAttr)
    (hok : (showAttributesCreatorModule ext (some templateAC) hiddenAttributes s).failure = none)
    (hnodup : (templateAC.tagProperty.map (fun a => a.positionListed)).Nodup)
    (a : GNEAttributeProperties) (ha : a ∈ templateAC.tagProperty) :
    ((∃ row, (showAttributesCreatorModule ext (some templateAC) hiddenAttributes
        s).state.myAttributesCreatorRows.get? a.positionListed = some (some row)) ↔
      Displayed hiddenAttributes s.editModes a) ∧
    (Displayed hiddenAttributes s.editModes a →
      (showAttributesCreatorModule ext (some templateAC) hiddenAttributes
        s).state.myAttributesCreatorRows.get? a.positionListed =
        some (some (AttributesCreatorRow.create ext templateAC a))) := by
  rw [showAttributesCreatorModule_failure] at hok
  rw [showAttributesCreatorModule_rows]
  have hdisp : Displayed hiddenAttributes s.editModes a →
      (showLoop ext templateAC hiddenAttributes s).rows.get? a.positionListed =
        some (some (AttributesCreatorRow.create ext templateAC a)) := fun hd =>
    refreshRowsLoop_create_get_displayed ext templateAC _ templateAC.tagProperty _ false hok
      hnodup a ha ((showAttribute_iff _ a).2 hd)
  refine ⟨⟨?_, fun hd => ⟨_, hdisp hd⟩⟩, hdisp⟩
  rintro ⟨row, hrow⟩
  obtain ⟨b, hb, hbd, hbpos, _⟩ := showLoop_displayed_rows ext templateAC hiddenAttributes s _ row hrow
  have hab : b = a := List.inj_on_of_nodup_map hnodup hb ha hbpos
  rw [← hab]
  exact hbd

/-- C6, at a concrete input: showing `exampleTemplate` succeeds, its two
attributes are listed at 0 and 1, and the string attribute, which passes the
display filter, has its row in slot 0. -/
theorem showAttributesCreatorModule_row_iff_displayed_witness :
    (showAttributesCreatorModule exampleExt (some exampleTemplate) [] exampleCreator).failure = none ∧
    (exampleTemplate.tagProperty.map (fun a => a.positionListed)).Nodup ∧
    exampleAttribute (SumoXMLAttr.other 8) 0 ∈ exampleTemplate.tagProperty ∧
    ((∃ row, (showAttributesCreatorModule exampleExt (some exampleTemplate) []
        exampleCreator).state.myAttributesCreatorRows.get?
          (exampleAttribute (SumoXMLAttr.other 8) 0).positionListed = some (some row)) ↔
      Displayed [] exampleCreator.editModes (exampleAttribute (SumoXMLAttr.other 8) 0)) ∧
    (Displayed [] exampleCreator.editModes (exampleAttribute (SumoXMLAttr.other 8) 0) →
      (showAttributesCreatorModule exampleExt (some exampleTemplate) []
        exampleCreator).state.myAttributesCreatorRows.get?
          (exampleAttribute (SumoXMLAttr.other 8) 0).positionListed =
        some (some (AttributesCreatorRow.create exampleExt exampleTemplate
          (exampleAttribute (SumoXMLAttr.other 8) 0)))) :=
  ⟨by decide, by decide, by decide,
    showAttributesCreatorModule_row_iff_displayed exampleExt exampleCreator exampleTemplate []
      (by decide) (by decide) (exampleAttribute (SumoXMLAttr.other 8) 0) (by decide)⟩

/-- C7: for every prior content of the row array and every non-null template,
after `showAttributesCreatorModule(template, hidden)`, with or without an
exception, every occupied slot holds the row newly created for a displayed
attribute of the template listed at that slot; every slot at which no displayed
attribute is listed is empty; and the row array is the same whatever rows the
array held before the call. -/
theorem showAttributesCreatorModule_rows_recreated {Val : Type} (ext : External Val)
    (s : AttributesCreator) (templateAC : GNEAttributeCarrier)
    (hiddenAttributes : List SumoXMLAttr) :
    (∀ i row, (showAttributesCreatorModule ext (some templateAC) hiddenAttributes
        s).state.myAttributesCreatorRows.get? i = some (some row) →
      ∃ a ∈ templateAC.tagProperty, Displayed hiddenAttributes s.editModes a ∧
        a.positionListed = i ∧ row = AttributesCreatorRow.create ext templateAC a) ∧
    (∀ i, i < s.myAttributesCreatorRows.length →
      (∀ a ∈ templateAC.tagProperty, Displayed hiddenAttributes s.editModes a →
        a.positionListed ≠ i) →
      (showAttributesCreatorModule ext (some templateAC) hiddenAttributes
        s).state.myAttributesCreatorRows.get? i = some none) ∧
    (∀ rows : List (Option AttributesCreatorRow),
      rows.length = s.myAttributesCreatorRows.length →
      (showAttributesCreatorModule ext (some templateAC) hiddenAttributes
        { s with myAttributesCreatorRows := rows }).state.myAttributesCreatorRows =
      (showAttributesCreatorModule ext (some templateAC) hiddenAttributes
        s).state.myAttributesCreatorRows) := by
  refine ⟨?_, ?_, ?_⟩
  · intro i row h
    rw [showAttributesCreatorModule_rows] at h
    exact showLoop_displayed_rows ext templateAC hiddenAttributes s i row h
  · intro i hi hnone
    rw [showAttributesCreatorModule_rows, showLoop, refreshRowsLoop_create_get_other,
      List.get?_eq_getElem?, List.getElem?_replicate]
    · simp [hi]
    · intro a ha hshow
      exact hnone a ha ((showAttribute_iff _ a).1 hshow)
  · intro rows hlen
    rw [showAttributesCreatorModule_rows, showAttributesCreatorModule_rows]
    simp only [showLoop, hlen]

/-- C8: `refreshAttributesCreator` creates and removes no row: the occupied
slots and the attribute properties of the row in each slot are the same before
and after the call, with or without an exception, and the row array keeps its
length; when the module is not shown or no template is set, the call returns
normally and the state is unchanged. -/
theorem refreshAttributesCreator_in_place {Val : Type} (ext : External Val)
    (s : AttributesCreator) :
    (refreshAttributesCreator ext s).state.myAttributesCreatorRows.map
        (Option.map AttributesCreatorRow.attrProperties) =
      s.myAttributesCreatorRows.map (Option.map AttributesCreatorRow.attrProperties) ∧
    (refreshAttributesCreator ext s).state.myAttributesCreatorRows.length =
      s.myAttributesCreatorRows.length ∧
    ((s.shown = false ∨ s.myTemplateAC = none) →
      refreshAttributesCreator ext s = { state := s, failure := none }) := by
  refine ⟨?_, ?_, ?_⟩
  · unfold refreshAttributesCreator
    split
    · rename_i h
      cases ht : s.myTemplateAC with
      | none => simp [ht] at h
      | some templateAC =>
        rw [refreshRows_rows ext false s templateAC ht, refreshRowsLoop_refresh_attrProperties]
    · rfl
  · unfold refreshAttributesCreator
    split
    · exact refreshRows_length ext false s
    · rfl
  · intro h
    unfold refreshAttributesCreator
    rcases h with h | h <;> simp [h]

/-- C9: the constructor leaves `MAXNUMBEROFATTRIBUTES` empty slots; show (with
or without a template), hide, refresh, disable and reset leave the row array
with the length it had, with or without an exception (`getAttributesAndValues`
and `areValuesValid` are const and return no state); and when the row array has
`MAXNUMBEROFATTRIBUTES` slots and every attribute of the template has a listed
position below `MAXNUMBEROFATTRIBUTES`, none of show, refresh, reset and
`areValuesValid` ends with `out_of_range`. -/
theorem row_array_fixed_size {Val : Type} (ext : External Val) (s : AttributesCreator) :
    (∀ editModes flowEditor shown resetButtonEnabled,
      (AttributesCreator.construct ext editModes flowEditor shown
        resetButtonEnabled).myAttributesCreatorRows =
        List.replicate ext.MAXNUMBEROFATTRIBUTES none ∧
      (AttributesCreator.construct ext editModes flowEditor shown
        resetButtonEnabled).myAttributesCreatorRows.length = ext.MAXNUMBEROFATTRIBUTES) ∧
    (∀ templateAC hiddenAttributes,
      (showAttributesCreatorModule ext templateAC hiddenAttributes
        s).state.myAttributesCreatorRows.length = s.myAttributesCreatorRows.length) ∧
    (hideAttributesCreatorModule s).myAttributesCreatorRows.length =
      s.myAttributesCreatorRows.length ∧
    (refreshAttributesCreator ext s).state.myAttributesCreatorRows.length =
      s.myAttributesCreatorRows.length ∧
    (disableAttributesCreator ext s).myAttributesCreatorRows.length =
      s.myAttributesCreatorRows.length ∧
    (onCmdReset ext s).state.myAttributesCreatorRows.length = s.myAttributesCreatorRows.length ∧
    (s.myAttributesCreatorRows.length = ext.MAXNUMBEROFATTRIBUTES →
      (∀ templateAC hiddenAttributes,
        (∀ a ∈ templateAC.tagProperty, a.positionListed < ext.MAXNUMBEROFATTRIBUTES) →
        (showAttributesCreatorModule ext (some templateAC) hiddenAttributes s).failure ≠
          some Failure.out_of_range) ∧
      (∀ templateAC, s.myTemplateAC = some templateAC →
        (∀ a ∈ templateAC.tagProperty, a.positionListed < ext.MAXNUMBEROFATTRIBUTES) →
        (refreshAttributesCreator ext s).failure ≠ some Failure.out_of_range ∧
        (onCmdReset ext s).failure ≠ some Failure.out_of_range ∧
        areValuesValid s ≠ .error Failure.out_of_range)) := by
  refine ⟨?_, ?_, ?_, ?_, ?_, ?_, ?_⟩
  · intro editModes flowEditor shown resetButtonEnabled
    simp [AttributesCreator.construct]
  · intro templateAC hiddenAttributes
    exact showAttributesCreatorModule_length ext templateAC hiddenAttributes s
  · rfl
  · exact (refreshAttributesCreator_length ext s)
  · simp [disableAttributesCreator]
  · exact onCmdReset_length ext s
  · intro hlen
    refine ⟨?_, ?_⟩
    · intro templateAC hiddenAttributes hpos
      rw [showAttributesCreatorModule_failure, showLoop]
      apply refreshRowsLoop_in_range
      intro a ha
      rw [List.length_replicate, hlen]
      exact hpos a ha
    · intro templateAC ht hpos
      refine ⟨?_, ?_, ?_⟩
      · unfold refreshAttributesCreator
        split
        · rw [refreshRows_failure ext false s templateAC ht]
          apply refreshRowsLoop_in_range
          intro a ha
          rw [hlen]
          exact hpos a ha
        · simp
      · simp only [onCmdReset, ht]
        rw [refreshRows_failure ext false _ (templateAC.resetDefaultValues ext) rfl]
        apply refreshRowsLoop_in_range
        intro a ha
        rw [hlen]
        exact hpos a ha
      · apply areValuesValid_no_out_of_range s templateAC ht
        intro a ha
        rw [hlen]
        exact hpos a ha

/-- C9, at a concrete input: `exampleShown` has the three slots of `exampleExt`
and its template lists its attributes at 0 and 1; refresh, reset and
`areValuesValid` do not end with `out_of_range`. -/
theorem row_array_fixed_size_witness :
    exampleShown.myAttributesCreatorRows.length = exampleExt.MAXNUMBEROFATTRIBUTES ∧
    exampleShown.myTemplateAC = some exampleTemplate ∧
    (∀ a ∈ exampleTemplate.tagProperty, a.positionListed < exampleExt.MAXNUMBEROFATTRIBUTES) ∧
    (refreshAttributesCreator exampleExt exampleShown).failure ≠ some Failure.out_of_range ∧
    (onCmdReset exampleExt exampleShown).failure ≠ some Failure.out_of_range ∧
    areValuesValid exampleShown ≠ .error Failure.out_of_range :=
  ⟨by decide, by decide, by decide,
    ((row_array_fixed_size exampleExt exampleShown).2.2.2.2.2.2 (by decide)).2 exampleTemplate
      (by decide) (by decide)⟩

/-- C10, as stated, fails in its last sentence: the row of
`exampleNoDefaultShown` is enabled, its attribute is not activatable, and its
value, the empty text, equals the default value of its attribute, which declares
none; with `includeAll = false` the row is written. -/
theorem getAttributesAndValues_default_valued_row_written :
    exampleNoDefaultShown.myAttributesCreatorRows = [some exampleNoDefaultRow, none, none] ∧
    exampleNoDefaultRow.attrProperties.attr = SumoXMLAttr.other 8 ∧
    exampleNoDefaultRow.enabled = true ∧
    exampleNoDefaultRow.attrProperties.isActivatable = false ∧
    exampleNoDefaultRow.attributeCheckButtonCheck = false ∧
    exampleNoDefaultRow.value = exampleNoDefaultRow.attrProperties.defaultValue ∧
    exampleNoDefaultRow.attrProperties.hasDefaultValue = false ∧
    getAttributesAndValues exampleExt exampleNoDefaultShown [] false =
      [SumoBaseObjectCall.addStringAttribute (SumoXMLAttr.other 8) ""] := by
  decide

/-- C10, amended: for an existing row with an attribute other than
`SUMO_ATTR_NOTHING`, the calls `getAttributesAndValues` makes are: those already
recorded, one per included row of the slots before, the calls for the row, one
per included row of the slots after, then the flow editor's part.  The calls for
the row are exactly one call under its attribute key if and only if the row is
enabled and one of these holds: `includeAll`; no default value; the value
differs from the default; the attribute is a flow definition; the attribute is
activatable and the check button is checked.  Otherwise there is none.  In
particular a disabled row is never written, and with `includeAll = false` an
enabled row that is not activatable-and-checked, whose attribute has a default
value and is no flow definition, and whose value equals the default, is
skipped. -/
theorem getAttributesAndValues_writes_iff {Val : Type} (ext : External Val) (s : AttributesCreator)
    (baseObject : List (SumoBaseObjectCall Val)) (includeAll : Bool)
    (pre post : List (Option AttributesCreatorRow)) (row : AttributesCreatorRow)
    (hrows : s.myAttributesCreatorRows = pre ++ some row :: post)
    (hattr : row.attrProperties.attr ≠ SumoXMLAttr.SUMO_ATTR_NOTHING) :
    ∃ before written after : List (SumoBaseObjectCall Val),
      getAttributesAndValues ext s baseObject includeAll =
        baseObject ++ before ++ written ++ after ++
          (if s.myFlowEditor.shown = true then [SumoBaseObjectCall.getFlowAttributes] else []) ∧
      before.map SumoBaseObjectCall.key =
        (includedRows includeAll pre).map (fun r => some r.attrProperties.attr) ∧
      after.map SumoBaseObjectCall.key =
        (includedRows includeAll post).map (fun r => some r.attrProperties.attr) ∧
      ((∃ call, written = [call] ∧ call.key = some row.attrProperties.attr) ↔
        InclusionCondition includeAll row) ∧
      (written = [] ↔ ¬ InclusionCondition includeAll row) ∧
      (row.enabled = false → written = []) ∧
      (includeAll = false → row.enabled = true →
        ¬ (row.attrProperties.isActivatable = true ∧ row.attributeCheckButtonCheck = true) →
        row.attrProperties.hasDefaultValue = true → row.attrProperties.isFlowDefinition = false →
        row.value = row.attrProperties.defaultValue → written = []) := by
  by_cases hincl : includeRow includeAll row = true
  · have hcond : InclusionCondition includeAll row := (includeRow_iff includeAll row).1 hincl
    refine ⟨(includedRows includeAll pre).map (addAttribute ext), [addAttribute ext row],
      (includedRows includeAll post).map (addAttribute ext), ?_,
      map_addAttribute_key ext _, map_addAttribute_key ext _, ?_, ?_, ?_, ?_⟩
    · unfold getAttributesAndValues
      simp only [getAttributesAndValuesRows_base, hrows, includedRows_append,
        includedRows_cons_included includeAll row post hattr hincl]
      split <;> simp
    · exact ⟨fun _ => hcond, fun _ => ⟨_, rfl, addAttribute_key ext row⟩⟩
    · exact ⟨fun h => by simp at h, fun h => absurd hcond h⟩
    · intro h
      rw [hcond.1] at h
      exact absurd h (by simp)
    · intro h1 _ h3 h4 h5 h6
      rcases hcond.2 with h | h | h | h | h
      · rw [h1] at h; exact absurd h (by simp)
      · rw [h4] at h; exact absurd h (by simp)
      · exact absurd h6 h
      · rw [h5] at h; exact absurd h (by simp)
      · exact absurd h h3
  · have hincl2 : includeRow includeAll row = false := by simpa using hincl
    have hcond : ¬ InclusionCondition includeAll row :=
      fun h => hincl ((includeRow_iff includeAll row).2 h)
    refine ⟨(includedRows includeAll pre).map (addAttribute ext), [],
      (includedRows includeAll post).map (addAttribute ext), ?_,
      map_addAttribute_key ext _, map_addAttribute_key ext _, ?_, ?_, ?_, ?_⟩
    · unfold getAttributesAndValues
      simp only [getAttributesAndValuesRows_base, hrows, includedRows_append,
        includedRows_cons_skipped includeAll row post hincl2]
      split <;> simp
    · exact ⟨fun ⟨_, h, _⟩ => by simp at h, fun h => absurd h hcond⟩
    · exact ⟨fun _ => hcond, fun _ => rfl⟩
    · exact fun _ => rfl
    · exact fun _ _ _ _ _ _ => rfl

/-- C10, amended, at a concrete input: the string row of `exampleShown`, in slot
0, is enabled and, with `includeAll = false`, its value "x" differs from the
default "d"; the calls made are the one for this row and the one for the int row
of slot 1, whose text does not parse as an int. -/
theorem getAttributesAndValues_writes_iff_witness :
    exampleShown.myAttributesCreatorRows = [] ++ some exampleStringRow :: [some exampleIntRow, none] ∧
    InclusionCondition false exampleStringRow ∧
    getAttributesAndValues exampleExt exampleShown [] false =
      [SumoBaseObjectCall.addStringAttribute (SumoXMLAttr.other 8) "x",
       SumoBaseObjectCall.addIntAttribute (SumoXMLAttr.other 9) (CppType.int, "d")] ∧
    ∃ before written after : List (SumoBaseObjectCall (CppType × String)),
      getAttributesAndValues exampleExt exampleShown [] false =
        [] ++ before ++ written ++ after ++
          (if exampleShown.myFlowEditor.shown = true then [SumoBaseObjectCall.getFlowAttributes]
           else []) ∧
      before.map SumoBaseObjectCall.key =
        (includedRows false []).map (fun r => some r.attrProperties.attr) ∧
      after.map SumoBaseObjectCall.key =
        (includedRows false [some exampleIntRow, none]).map
          (fun r => some r.attrProperties.attr) ∧
      ((∃ call, written = [call] ∧ call.key = some exampleStringRow.attrProperties.attr) ↔
        InclusionCondition false exampleStringRow) ∧
      (written = [] ↔ ¬ InclusionCondition false exampleStringRow) ∧
      (exampleStringRow.enabled = false → written = []) ∧
      (false = false → exampleStringRow.enabled = true →
        ¬ (exampleStringRow.attrProperties.isActivatable = true ∧
            exampleStringRow.attributeCheckButtonCheck = true) →
        exampleStringRow.attrProperties.hasDefaultValue = true →
        exampleStringRow.attrProperties.isFlowDefinition = false →
        exampleStringRow.value = exampleStringRow.attrProperties.defaultValue → written = []) :=
  ⟨by decide, by decide, by decide,
    getAttributesAndValues_writes_iff exampleExt exampleShown [] false [] [some exampleIntRow, none]
      exampleStringRow (by decide) (by decide)⟩

/-- C11: in the state reached from construction by a show of `exampleTemplate`
followed by a show of the null template, the second show has thrown
`ProcessError`, the template is still set, the module is still shown, and the
string attribute of the template, which passes the display filter, is listed at
slot 0, which is empty; `refreshAttributesCreator` and `onCmdReset` then run
`refreshRows(false)`, which dereferences the empty slot. -/
theorem refreshRows_null_dereference_after_failed_show :
    (showAttributesCreatorModule exampleExt (some exampleTemplate) [] exampleCreator).failure =
      none ∧
    (showAttributesCreatorModule exampleExt none [] exampleShown).failure =
      some (Failure.ProcessError "invalid templateAC in showAttributesCreatorModule") ∧
    exampleAfterNullShow.myTemplateAC = some exampleTemplate ∧
    exampleAfterNullShow.shown = true ∧
    exampleAfterNullShow.myAttributesCreatorRows = [none, none, none] ∧
    exampleAttribute (SumoXMLAttr.other 8) 0 ∈ exampleTemplate.tagProperty ∧
    Displayed exampleAfterNullShow.myHiddenAttributes exampleAfterNullShow.editModes
      (exampleAttribute (SumoXMLAttr.other 8) 0) ∧
    ¬ RowsPresent exampleAfterNullShow ∧
    (refreshAttributesCreator exampleExt exampleAfterNullShow).failure =
      some Failure.nullDereference ∧
    (onCmdReset exampleExt exampleAfterNullShow).failure = some Failure.nullDereference := by
  refine ⟨by decide, by decide, by decide, by decide, by decide, by decide, by decide, ?_,
    by decide, by decide⟩
  intro h
  obtain ⟨row, hrow⟩ := h exampleTemplate (by decide) (exampleAttribute (SumoXMLAttr.other 8) 0)
    (by decide) (by decide)
  have hslot : exampleAfterNullShow.myAttributesCreatorRows.get?
      (exampleAttribute (SumoXMLAttr.other 8) 0).positionListed = some none := by decide
  rw [hslot] at hrow
  simp at hrow

/-- C12: `showAttributesCreatorModule` ends with `ProcessError` if and only if
the template passed is null; in that case the call leaves the state it found
except for the row array, which keeps its length and has every slot empty: the
stored template and the stored hidden attributes are those from before the
call. -/
theorem showAttributesCreatorModule_ProcessError_iff {Val : Type} (ext : External Val)
    (s : AttributesCreator) (templateAC : Option GNEAttributeCarrier)
    (hiddenAttributes : List SumoXMLAttr) :
    ((∃ msg, (showAttributesCreatorModule ext templateAC hiddenAttributes s).failure =
        some (Failure.ProcessError msg)) ↔ templateAC = none) ∧
    (templateAC = none →
      (showAttributesCreatorModule ext templateAC hiddenAttributes s).state =
        { s with
          myAttributesCreatorRows := List.replicate s.myAttributesCreatorRows.length none } ∧
      (showAttributesCreatorModule ext templateAC hiddenAttributes s).state.myTemplateAC =
        s.myTemplateAC ∧
      (showAttributesCreatorModule ext templateAC hiddenAttributes s).state.myHiddenAttributes =
        s.myHiddenAttributes ∧
      (∀ i, i < s.myAttributesCreatorRows.length →
        (showAttributesCreatorModule ext templateAC hiddenAttributes
          s).state.myAttributesCreatorRows.get? i = some none)) := by
  cases templateAC with
  | none =>
    refine ⟨⟨fun _ => rfl, fun _ => ⟨_, rfl⟩⟩, fun _ => ?_⟩
    have hstate : (showAttributesCreatorModule ext none hiddenAttributes s).state =
        { s with
          myAttributesCreatorRows := List.replicate s.myAttributesCreatorRows.length none } := by
      simp only [showAttributesCreatorModule, destroy_rows_eq_replicate]
    refine ⟨hstate, ?_, ?_, ?_⟩
    · rw [hstate]
    · rw [hstate]
    · intro i hi
      rw [hstate]
      simp [List.getElem?_replicate, hi]
  | some t =>
    refine ⟨⟨?_, fun h => by simp at h⟩, fun h => by simp at h⟩
    rintro ⟨msg, hmsg⟩
    rw [showAttributesCreatorModule_failure, showLoop] at hmsg
    rcases refreshRowsLoop_create_failure ext t _ t.tagProperty
      (List.replicate s.myAttributesCreatorRows.length none) false with h | h
    · rw [h] at hmsg; simp at hmsg
    · rw [h] at hmsg; simp at hmsg

/-- C13, as stated, fails on a run of `refreshRows` that ends with an
exception.  In `exampleAfterFarShow` the first show has hidden the flow editor
and the module is shown; the second show has set a template that has a
flow-definition attribute and lists a displayed attribute outside the array, and
has thrown `out_of_range`; `refreshAttributesCreator` and `onCmdReset` then run
`refreshRows`, which throws `out_of_range` again, and the flow editor is still
hidden.  In `exampleFlowAfterNullShow` the template has a flow-definition
attribute, the hide has hidden the flow editor and the null show has emptied the
row array; `onCmdReset` then runs `refreshRows`, which dereferences an empty
slot, and the flow editor is still hidden. -/
theorem flowEditor_hidden_after_failed_refreshRows :
    (exampleAfterFarShow.myTemplateAC = some exampleFlowFarTemplate ∧
      (∃ a ∈ exampleFlowFarTemplate.tagProperty, a.isFlowDefinition = true) ∧
      exampleAfterFarShow.shown = true ∧
      (refreshAttributesCreator exampleExt exampleAfterFarShow).failure =
        some Failure.out_of_range ∧
      (refreshAttributesCreator exampleExt exampleAfterFarShow).state.myFlowEditor.shown = false ∧
      (onCmdReset exampleExt exampleAfterFarShow).failure = some Failure.out_of_range ∧
      (onCmdReset exampleExt exampleAfterFarShow).state.myFlowEditor.shown = false) ∧
    (exampleFlowAfterNullShow.myTemplateAC = some exampleFlowTemplate ∧
      (∃ a ∈ exampleFlowTemplate.tagProperty, a.isFlowDefinition = true) ∧
      (onCmdReset exampleExt exampleFlowAfterNullShow).failure = some Failure.nullDereference ∧
      (onCmdReset exampleExt exampleFlowAfterNullShow).state.myFlowEditor.shown = false) := by
  decide

/-- C13, amended: after every run of `refreshRows` that returns normally (from
a successful show, from `refreshAttributesCreator` on a shown module, from
`onCmdReset` with a template set), the flow editor is shown if and only if the
template has at least one flow-definition attribute, whatever the other flags
of that attribute and the hidden list; the runs from `refreshAttributesCreator`
and `onCmdReset` return normally when every attribute of the template that
passes the display filter has a row at its listed position; after
`hideAttributesCreatorModule` the flow editor is hidden. -/
theorem flowEditor_shown_iff_flow_definition {Val : Type} (ext : External Val)
    (s : AttributesCreator) :
    (∀ templateAC hiddenAttributes,
      (showAttributesCreatorModule ext (some templateAC) hiddenAttributes s).failure = none →
      ((showAttributesCreatorModule ext (some templateAC) hiddenAttributes
          s).state.myFlowEditor.shown = true ↔
        ∃ a ∈ templateAC.tagProperty, a.isFlowDefinition = true)) ∧
    (∀ templateAC, s.myTemplateAC = some templateAC → s.shown = true →
      (refreshAttributesCreator ext s).failure = none →
      ((refreshAttributesCreator ext s).state.myFlowEditor.shown = true ↔
        ∃ a ∈ templateAC.tagProperty, a.isFlowDefinition = true)) ∧
    (∀ templateAC, s.myTemplateAC = some templateAC →
      (onCmdReset ext s).failure = none →
      ((onCmdReset ext s).state.myFlowEditor.shown = true ↔
        ∃ a ∈ templateAC.tagProperty, a.isFlowDefinition = true)) ∧
    (∀ templateAC, s.myTemplateAC = some templateAC →
      (∀ a ∈ templateAC.tagProperty, Displayed s.myHiddenAttributes s.editModes a →
        ∃ row, s.myAttributesCreatorRows.get? a.positionListed = some (some row)) →
      (refreshAttributesCreator ext s).failure = none ∧ (onCmdReset ext s).failure = none) ∧
    (hideAttributesCreatorModule s).myFlowEditor.shown = false := by
  refine ⟨?_, ?_, ?_, ?_, rfl⟩
  · intro templateAC hiddenAttributes hok
    exact showAttributesCreatorModule_flowEditor ext templateAC hiddenAttributes s hok
  · intro templateAC ht hshown hok
    have hrefresh : refreshAttributesCreator ext s = refreshRows ext false s := by
      simp [refreshAttributesCreator, ht, hshown]
    rw [hrefresh] at hok ⊢
    exact refreshRows_flowEditor_shown ext false s templateAC ht hok
  · intro templateAC ht hok
    have hreset : onCmdReset ext s = refreshRows ext false
        { s with myTemplateAC := some (templateAC.resetDefaultValues ext) } := by
      simp [onCmdReset, ht]
    rw [hreset] at hok ⊢
    exact refreshRows_flowEditor_shown ext false _ (templateAC.resetDefaultValues ext) rfl hok
  · intro templateAC ht hrows
    constructor
    · unfold refreshAttributesCreator
      split
      · rw [refreshRows_failure ext false s templateAC ht]
        apply refreshRowsLoop_refresh_ok
        intro a ha hshow
        exact hrows a ha ((showAttribute_iff s a).1 hshow)
      · rfl
    · simp only [onCmdReset, ht]
      rw [refreshRows_failure ext false _ (templateAC.resetDefaultValues ext) rfl]
      apply refreshRowsLoop_refresh_ok
      intro a ha hshow
      exact hrows a ha ((showAttribute_iff _ a).1 hshow)

/-- C13, amended, at a concrete input: `exampleFlowTemplate` has a
flow-definition attribute that is unique and, here, in the hidden list; showing
it succeeds and shows the flow editor; in the state reached the displayed
attribute has its row, `onCmdReset` returns normally and the flow editor stays
shown; hiding the module hides the flow editor. -/
theorem flowEditor_shown_iff_flow_definition_witness :
    (showAttributesCreatorModule exampleExt (some exampleFlowTemplate) [SumoXMLAttr.other 6]
      exampleCreator).failure = none ∧
    (showAttributesCreatorModule exampleExt (some exampleFlowTemplate) [SumoXMLAttr.other 6]
      exampleCreator).state.myFlowEditor.shown = true ∧
    (onCmdReset exampleExt
      (showAttributesCreatorModule exampleExt (some exampleFlowTemplate) [SumoXMLAttr.other 6]
        exampleCreator).state).failure = none ∧
    ((onCmdReset exampleExt
        (showAttributesCreatorModule exampleExt (some exampleFlowTemplate) [SumoXMLAttr.other 6]
          exampleCreator).state).state.myFlowEditor.shown = true ↔
      ∃ a ∈ exampleFlowTemplate.tagProperty, a.isFlowDefinition = true) ∧
    (hideAttributesCreatorModule
      (showAttributesCreatorModule exampleExt (some exampleFlowTemplate) [SumoXMLAttr.other 6]
        exampleCreator).state).myFlowEditor.shown = false :=
  ⟨by decide, by decide, by decide,
    (flowEditor_shown_iff_flow_definition exampleExt
      (showAttributesCreatorModule exampleExt (some exampleFlowTemplate) [SumoXMLAttr.other 6]
        exampleCreator).state).2.2.1 exampleFlowTemplate (by decide) (by decide),
    by decide⟩

end GNEAttributesCreator
